import Mathlib

/-!
Shallow embedding of the pricing engine of `precios` (models.py / services.py).

Monetary amounts (Python `Decimal`) are modelled as `Rat`; calendar dates as
`Int` (ordinal days); database tables as lists of records carried in a `DB`
structure.  Django query sets are modelled by `List.filter`, `order_by` on a
single descending key by an insertion sort, `.first()` by `List.head?`.
Python truthiness tests (`if canal:`, `if monto_pedido:`, `if items_pedido:`,
`if sucursal_id:`, `... if regla.cantidad_minima else None`) are modelled
explicitly: `None`, `0`, the empty string and the empty list are falsy.
Fallible operations return `Except String`.
-/

namespace Precios

/-- A product group; `linea` is the id of the `LineaArticulo` it belongs to. -/
structure GrupoArticulo where
  id : Nat
  linea : Nat
deriving DecidableEq, Repr

/-- An item (`Articulo`): belongs to one group, carries its last cost. -/
structure Articulo where
  id : Nat
  grupo : GrupoArticulo
  nombre : String
  ultimo_costo : Rat
  activo : Bool
deriving DecidableEq, Repr

/-- A price list (`ListaPrecio`). -/
structure ListaPrecio where
  id : Nat
  empresa_id : Nat
  sucursal_id : Option Nat
  nombre : String
  tipo : String
  canal : Option String
  fecha_inicio : Int
  fecha_fin : Option Int
  activo : Bool
deriving DecidableEq, Repr

/-- Base price of an item inside one list (`PrecioArticulo`). -/
structure PrecioArticulo where
  id : Nat
  lista_precio : Nat
  articulo : Nat
  precio_base : Rat
  bajo_costo : Bool
  autorizado_bajo_costo : Bool
  descuento_proveedor : Rat
  observaciones : String
deriving DecidableEq, Repr

/-- A pricing rule (`ReglaPrecio`).  `tipo_regla` is one of CANAL,
ESCALA_UNIDADES, ESCALA_MONTO, MONTO_PEDIDO, COMBINACION and
`tipo_descuento` one of PORCENTAJE, MONTO_FIJO, kept as strings as in the
source. -/
structure ReglaPrecio where
  lista_precio : Nat
  nombre : String
  tipo_regla : String
  prioridad : Int
  canal : Option String
  linea_articulo : Option Nat
  grupo_articulo : Option Nat
  cantidad_minima : Option Rat
  cantidad_maxima : Option Rat
  monto_minimo : Option Rat
  monto_maximo : Option Rat
  tipo_descuento : String
  valor_descuento : Rat
  activo : Bool
deriving DecidableEq, Repr

/-- One line requirement of a bundle (`DetalleCombinacionProducto`). -/
structure DetalleCombinacionProducto where
  articulo : Option Nat
  grupo_articulo : Option Nat
  linea_articulo : Option Nat
  cantidad_requerida : Int
deriving DecidableEq, Repr

/-- A product bundle (`CombinacionProducto`) with its line requirements
inlined (the `detalles` related set). -/
structure CombinacionProducto where
  lista_precio : Nat
  nombre : String
  cantidad_minima : Int
  tipo_descuento : String
  valor_descuento : Rat
  activo : Bool
  detalles : List DetalleCombinacionProducto
deriving DecidableEq, Repr

/-- One line of the order payload (`items_pedido` entries, dicts with
`articulo_id` and `cantidad`). -/
structure ItemPedido where
  articulo_id : Nat
  cantidad : Rat
deriving DecidableEq, Repr

/-- The read-only store the engine queries. -/
structure DB where
  listas : List ListaPrecio
  articulos : List Articulo
  precios : List PrecioArticulo
  reglas : List ReglaPrecio
  combinaciones : List CombinacionProducto
deriving Repr

/-- Descriptor of one applied rule (the per-stage result dict).  The bound
fields are only populated by the stages that echo them. -/
structure ReglaAplicada where
  tipo : String
  nombre : String
  descuento : Rat
  tipo_descuento : String
  cantidad_minima : Option Rat := none
  cantidad_maxima : Option Rat := none
  monto_minimo : Option Rat := none
  monto_maximo : Option Rat := none
deriving DecidableEq, Repr

/-- The result dict of `calcular_precio`. -/
structure ResultadoPrecio where
  articulo_id : Nat
  articulo_nombre : String
  cantidad : Rat
  precio_base : Rat
  precio_final : Rat
  monto_total : Rat
  descuento_total : Rat
  porcentaje_descuento : Rat
  reglas_aplicadas : List ReglaAplicada
  bajo_costo : Bool
  autorizado_bajo_costo : Bool
  ultimo_costo : Rat
  descuento_proveedor : Rat
  lista_precio : String
deriving DecidableEq, Repr

/-! ### Ordering helper: `order_by` on one descending key plus `.first()` -/

/-- Descending comparison on an integer key (`order_by` with a `-` prefix). -/
def keyGe {α : Type} (key : α → Int) (a b : α) : Prop := key b ≤ key a

instance {α : Type} (key : α → Int) : DecidableRel (keyGe key) :=
  fun a b => inferInstanceAs (Decidable (key b ≤ key a))

instance {α : Type} (key : α → Int) : IsTotal α (keyGe key) :=
  ⟨fun a b => le_total (key b) (key a)⟩

instance {α : Type} (key : α → Int) : IsTrans α (keyGe key) :=
  ⟨fun _ _ _ h1 h2 => le_trans h2 h1⟩

/-- Sort a list descending by an integer key (models `order_by('-key')`). -/
def sortDescBy {α : Type} (key : α → Int) (l : List α) : List α :=
  l.insertionSort (keyGe key)

/-! ### Python truthiness helpers -/

/-- Truthiness of an optional integer id (`if sucursal_id:`). -/
def truthyNat : Option Nat → Bool
  | some n => n != 0
  | none => false

/-- Truthiness of an optional string (`if canal:`). -/
def truthyStr : Option String → Bool
  | some s => s != ""
  | none => false

/-- Truthiness of an optional amount (`if monto_pedido:`). -/
def truthyRat : Option Rat → Bool
  | some q => q != 0
  | none => false

/-- Truthiness of an optional list (`if items_pedido:`). -/
def truthyList {α : Type} : Option (List α) → Bool
  | some l => !l.isEmpty
  | none => false

/-- Models `float(x) if x else None` on an optional Decimal field: `None`
and `0` both collapse to `None`. -/
def truthyEcho (v : Option Rat) : Option Rat :=
  match v with
  | some x => if x == 0 then none else some x
  | none => none

/-! ### Price list resolution (`PrecioService.obtener_lista_vigente`) -/

/-- The filter built by `obtener_lista_vigente`: base filters plus the
no-expiry disjunction, with the branch/channel filters added only when the
corresponding argument is truthy. -/
def listaVigenteFiltro (empresa_id : Nat) (sucursal_id : Option Nat)
    (canal : Option String) (fecha_consulta : Int) (l : ListaPrecio) : Bool :=
  l.empresa_id == empresa_id &&
  l.activo &&
  decide (l.fecha_inicio ≤ fecha_consulta) &&
  (!truthyNat sucursal_id || l.sucursal_id == sucursal_id) &&
  (!truthyStr canal || l.canal == canal) &&
  (match l.fecha_fin with
   | some f => decide (fecha_consulta ≤ f)
   | none => true)

/-- `PrecioService.obtener_lista_vigente`: filter the lists, order by
descending `fecha_inicio` and take the first.  `hoy` stands for
`timezone.now().date()`. -/
def obtener_lista_vigente (db : DB) (empresa_id : Nat)
    (sucursal_id : Option Nat) (canal : Option String) (fecha : Option Int)
    (hoy : Int) : Option ListaPrecio :=
  let fecha_consulta := fecha.getD hoy
  let listas := db.listas.filter
    (listaVigenteFiltro empresa_id sucursal_id canal fecha_consulta)
  (sortDescBy (fun l => l.fecha_inicio) listas).head?

/-! ### Discount application (`ReglaPrecio.aplicar_descuento`) -/

/-- `ReglaPrecio.aplicar_descuento`: PORCENTAJE multiplies, anything else is
treated as MONTO_FIJO and is clamped at zero. -/
def ReglaPrecio.aplicar_descuento (r : ReglaPrecio) (precio_base : Rat) : Rat :=
  if r.tipo_descuento == "PORCENTAJE" then
    precio_base * (1 - r.valor_descuento / 100)
  else
    max (precio_base - r.valor_descuento) 0

/-! ### The five rule stages (`PrecioService._aplicar_regla_*`) -/

/-- The scope disjunction shared by the scoped stages:
`Q(linea_articulo=articulo.grupo.linea) | Q(grupo_articulo=articulo.grupo) |
Q(linea_articulo__isnull=True, grupo_articulo__isnull=True)`. -/
def matchesScope (r : ReglaPrecio) (articulo : Articulo) : Bool :=
  r.linea_articulo == some articulo.grupo.linea ||
  r.grupo_articulo == some articulo.grupo.id ||
  (r.linea_articulo == none && r.grupo_articulo == none)

/-- `_aplicar_regla_canal`. -/
def aplicar_regla_canal (db : DB) (lista : ListaPrecio) (articulo : Articulo)
    (precio_actual : Rat) (canal : String) : Rat × Option ReglaAplicada :=
  match (sortDescBy (fun r => r.prioridad)
    ((db.reglas.filter (fun r =>
        r.lista_precio == lista.id && r.tipo_regla == "CANAL" &&
        r.canal == some canal && r.activo)).filter
      (fun r => matchesScope r articulo))).head? with
  | some regla =>
    (regla.aplicar_descuento precio_actual,
     some { tipo := "CANAL", nombre := regla.nombre,
            descuento := regla.valor_descuento,
            tipo_descuento := regla.tipo_descuento })
  | none => (precio_actual, none)

/-- `_aplicar_regla_escala_unidades`. -/
def aplicar_regla_escala_unidades (db : DB) (lista : ListaPrecio)
    (articulo : Articulo) (precio_actual : Rat) (cantidad : Rat) :
    Rat × Option ReglaAplicada :=
  match (sortDescBy (fun r => r.prioridad)
    (((db.reglas.filter (fun r =>
         r.lista_precio == lista.id && r.tipo_regla == "ESCALA_UNIDADES" &&
         r.activo)).filter
       (fun r => matchesScope r articulo)).filter
      (fun r =>
        (match r.cantidad_minima with
         | some m => decide (m ≤ cantidad)
         | none => true) &&
        (match r.cantidad_maxima with
         | some m => decide (cantidad ≤ m)
         | none => true)))).head? with
  | some regla =>
    (regla.aplicar_descuento precio_actual,
     some { tipo := "ESCALA_UNIDADES", nombre := regla.nombre,
            descuento := regla.valor_descuento,
            tipo_descuento := regla.tipo_descuento,
            cantidad_minima := truthyEcho regla.cantidad_minima,
            cantidad_maxima := truthyEcho regla.cantidad_maxima })
  | none => (precio_actual, none)

/-- `_aplicar_regla_escala_monto`. -/
def aplicar_regla_escala_monto (db : DB) (lista : ListaPrecio)
    (articulo : Articulo) (precio_actual : Rat) (monto_item : Rat) :
    Rat × Option ReglaAplicada :=
  match (sortDescBy (fun r => r.prioridad)
    (((db.reglas.filter (fun r =>
         r.lista_precio == lista.id && r.tipo_regla == "ESCALA_MONTO" &&
         r.activo)).filter
       (fun r => matchesScope r articulo)).filter
      (fun r =>
        (match r.monto_minimo with
         | some m => decide (m ≤ monto_item)
         | none => true) &&
        (match r.monto_maximo with
         | some m => decide (monto_item ≤ m)
         | none => true)))).head? with
  | some regla =>
    (regla.aplicar_descuento precio_actual,
     some { tipo := "ESCALA_MONTO", nombre := regla.nombre,
            descuento := regla.valor_descuento,
            tipo_descuento := regla.tipo_descuento,
            monto_minimo := truthyEcho regla.monto_minimo,
            monto_maximo := truthyEcho regla.monto_maximo })
  | none => (precio_actual, none)

/-- `_aplicar_regla_monto_pedido` (no scope filter). -/
def aplicar_regla_monto_pedido (db : DB) (lista : ListaPrecio)
    (articulo : Articulo) (precio_actual : Rat) (monto_pedido : Rat) :
    Rat × Option ReglaAplicada :=
  match (sortDescBy (fun r => r.prioridad)
    ((db.reglas.filter (fun r =>
        r.lista_precio == lista.id && r.tipo_regla == "MONTO_PEDIDO" &&
        r.activo)).filter
      (fun r =>
        (match r.monto_minimo with
         | some m => decide (m ≤ monto_pedido)
         | none => true) &&
        (match r.monto_maximo with
         | some m => decide (monto_pedido ≤ m)
         | none => true)))).head? with
  | some regla =>
    (regla.aplicar_descuento precio_actual,
     some { tipo := "MONTO_PEDIDO", nombre := regla.nombre,
            descuento := regla.valor_descuento,
            tipo_descuento := regla.tipo_descuento })
  | none => (precio_actual, none)

/-! ### Combination evaluator (`_validar_combinacion`, `_aplicar_regla_combinacion`) -/

/-- Inner loop of `_validar_combinacion` for one line requirement: fold over
the order lines, adding the line's quantity on the first matching branch of
the `if`/`elif` chain; the item lookup (`Articulo.objects.get(pk=...)`,
without an `activo` filter) failing skips the line. -/
def cantidadEncontrada (db : DB) (detalle : DetalleCombinacionProducto)
    (items_pedido : List ItemPedido) : Rat :=
  items_pedido.foldl
    (fun cantidad_encontrada item =>
      match db.articulos.find? (fun a => a.id == item.articulo_id) with
      | none => cantidad_encontrada
      | some articulo =>
        if detalle.articulo.isSome && detalle.articulo == some item.articulo_id then
          cantidad_encontrada + item.cantidad
        else if detalle.grupo_articulo.isSome &&
            detalle.grupo_articulo == some articulo.grupo.id then
          cantidad_encontrada + item.cantidad
        else if detalle.linea_articulo.isSome &&
            detalle.linea_articulo == some articulo.grupo.linea then
          cantidad_encontrada + item.cantidad
        else
          cantidad_encontrada)
    0

/-- `_validar_combinacion`: every line requirement must reach its required
quantity. -/
def validar_combinacion (db : DB) (combinacion : CombinacionProducto)
    (items_pedido : List ItemPedido) : Bool :=
  combinacion.detalles.all
    (fun detalle =>
      decide ((detalle.cantidad_requerida : Rat) ≤
        cantidadEncontrada db detalle items_pedido))

/-- `_aplicar_regla_combinacion`: scan the list's active bundles in stored
order, apply the first one that validates. -/
def aplicar_regla_combinacion (db : DB) (lista : ListaPrecio)
    (articulo : Articulo) (precio_actual : Rat)
    (items_pedido : List ItemPedido) : Rat × Option ReglaAplicada :=
  match (db.combinaciones.filter
      (fun c => c.lista_precio == lista.id && c.activo)).find?
      (fun c => validar_combinacion db c items_pedido) with
  | some combinacion =>
    ((if combinacion.tipo_descuento == "PORCENTAJE" then
        precio_actual * (1 - combinacion.valor_descuento / 100)
      else
        max (precio_actual - combinacion.valor_descuento) 0),
     some { tipo := "COMBINACION", nombre := combinacion.nombre,
            descuento := combinacion.valor_descuento,
            tipo_descuento := combinacion.tipo_descuento })
  | none => (precio_actual, none)

/-! ### The audit record and sink (`_registrar_auditoria_calculo`) -/

/-- The payload `_registrar_auditoria_calculo` writes to `AuditoriaPrecios`
(`tipo_operacion='CALCULO'`, `tabla='precio_calculo'`). -/
structure AuditoriaCalculo where
  registro_id : Nat
  precio_base : Rat
  precio_final : Rat
  reglas_aplicadas : List ReglaAplicada
  bajo_costo : Bool
deriving DecidableEq, Repr

/-- The audit sink: `AuditoriaPrecios.objects.create` may raise, which the
embedding models as an `Except` result supplied by the environment. -/
def AuditSink : Type := AuditoriaCalculo → Except String Unit

/-! ### `PrecioService.calcular_precio` -/

/-- `PrecioService.calcular_precio`.  Steps: resolve the current list, fetch
item and base price, run the five stages in order threading the running
price, flag below-cost, write the audit record (inside the same
`try`/`except Exception`, so a sink failure aborts the whole call), and
assemble the result dict. -/
def calcular_precio (db : DB) (sink : AuditSink) (empresa_id : Nat)
    (articulo_id : Nat) (cantidad : Rat) (sucursal_id : Option Nat)
    (canal : Option String) (monto_pedido : Option Rat)
    (items_pedido : Option (List ItemPedido)) (fecha : Option Int)
    (hoy : Int) : Except String ResultadoPrecio :=
  match obtener_lista_vigente db empresa_id sucursal_id canal fecha hoy with
  | none => .error "Error al calcular precio: No existe una lista de precios vigente"
  | some lista =>
    match db.articulos.find? (fun a => a.id == articulo_id && a.activo) with
    | none => .error ("Artículo con ID " ++ toString articulo_id ++ " no existe")
    | some articulo =>
      match db.precios.find?
          (fun p => p.lista_precio == lista.id && p.articulo == articulo.id) with
      | none =>
        .error ("Error al calcular precio: No existe precio para el artículo "
          ++ articulo.nombre)
      | some precio_articulo =>
        let precio_base := precio_articulo.precio_base
        let paso_canal :=
          if truthyStr canal then
            aplicar_regla_canal db lista articulo precio_base (canal.getD "")
          else (precio_base, none)
        let paso_unidades :=
          aplicar_regla_escala_unidades db lista articulo paso_canal.1 cantidad
        let monto_item := paso_unidades.1 * cantidad
        let paso_monto :=
          aplicar_regla_escala_monto db lista articulo paso_unidades.1 monto_item
        let paso_pedido :=
          if truthyRat monto_pedido then
            aplicar_regla_monto_pedido db lista articulo paso_monto.1
              (monto_pedido.getD 0)
          else (paso_monto.1, none)
        let paso_combinacion :=
          if truthyList items_pedido then
            aplicar_regla_combinacion db lista articulo paso_pedido.1
              (items_pedido.getD [])
          else (paso_pedido.1, none)
        let precio_actual := paso_combinacion.1
        let reglas_aplicadas :=
          paso_canal.2.toList ++ paso_unidades.2.toList ++ paso_monto.2.toList
            ++ paso_pedido.2.toList ++ paso_combinacion.2.toList
        let bajo_costo := decide (precio_actual < articulo.ultimo_costo)
        let autorizado :=
          if bajo_costo then precio_articulo.autorizado_bajo_costo else true
        match sink { registro_id := articulo_id, precio_base := precio_base,
                     precio_final := precio_actual,
                     reglas_aplicadas := reglas_aplicadas,
                     bajo_costo := bajo_costo } with
        | .error e => .error ("Error al calcular precio: " ++ e)
        | .ok _ =>
          .ok { articulo_id := articulo_id,
                articulo_nombre := articulo.nombre,
                cantidad := cantidad,
                precio_base := precio_base,
                precio_final := precio_actual,
                monto_total := precio_actual * cantidad,
                descuento_total := precio_base - precio_actual,
                porcentaje_descuento :=
                  if precio_base > 0 then
                    (precio_base - precio_actual) / precio_base * 100
                  else 0,
                reglas_aplicadas := reglas_aplicadas,
                bajo_costo := bajo_costo,
                autorizado_bajo_costo := autorizado,
                ultimo_costo := articulo.ultimo_costo,
                descuento_proveedor := precio_articulo.descuento_proveedor,
                lista_precio := lista.nombre }

/-! ### Write-path validation and supplier discount -/

/-- `PrecioArticulo.clean` (models.py): reject a below-cost base price
without flags or a supplier discount of at least 50, otherwise force the
`bajo_costo` flag when below cost. -/
def PrecioArticulo.clean (pa : PrecioArticulo) (articulo : Articulo) :
    Except String PrecioArticulo :=
  if pa.precio_base < articulo.ultimo_costo then
    if (!pa.bajo_costo || !pa.autorizado_bajo_costo) &&
        pa.descuento_proveedor < 50 then
      .error ("El precio (" ++ toString pa.precio_base
        ++ ") es inferior al costo (" ++ toString articulo.ultimo_costo
        ++ "). Requiere autorización o descuento de proveedor >= 50%")
    else
      .ok { pa with bajo_costo := true }
  else
    .ok pa

/-- `PrecioService.registrar_descuento_proveedor`: bounds check, fetch by
pk, set exactly three fields, save.  Returns the updated record and the
updated store. -/
def registrar_descuento_proveedor (db : DB) (precio_articulo_id : Nat)
    (descuento_porcentaje : Rat) (observaciones : String) :
    Except String (PrecioArticulo × DB) :=
  if !(decide (50 ≤ descuento_porcentaje) && decide (descuento_porcentaje ≤ 70)) then
    .error "El descuento de proveedor debe estar entre 50% y 70%"
  else
    match db.precios.find? (fun p => p.id == precio_articulo_id) with
    | none => .error "PrecioArticulo matching query does not exist."
    | some precio_articulo =>
      let actualizado :=
        { precio_articulo with
          descuento_proveedor := descuento_porcentaje,
          autorizado_bajo_costo := true,
          observaciones := observaciones }
      let precios_guardados := db.precios.map
        (fun p => if p.id == precio_articulo_id then actualizado else p)
      .ok (actualizado, { db with precios := precios_guardados })

/-! ### Concrete data used to exercise the definitions -/

/-- A product group in line 1. -/
def demoGrupo : GrupoArticulo := { id := 1, linea := 1 }

/-- An item costing 1000. -/
def demoArticulo : Articulo :=
  { id := 1, grupo := demoGrupo, nombre := "Taladro", ultimo_costo := 1000,
    activo := true }

/-- An always-valid general price list of company 1. -/
def demoLista : ListaPrecio :=
  { id := 1, empresa_id := 1, sucursal_id := none, nombre := "Lista General",
    tipo := "GENERAL", canal := none, fecha_inicio := 0, fecha_fin := none,
    activo := true }

/-- A base price of 800 (below the 1000 cost) with no authorization flags. -/
def demoPrecio : PrecioArticulo :=
  { id := 1, lista_precio := 1, articulo := 1, precio_base := 800,
    bajo_costo := false, autorizado_bajo_costo := false,
    descuento_proveedor := 0, observaciones := "" }

/-- Store with no rules and no bundles. -/
def demoDB : DB :=
  { listas := [demoLista], articulos := [demoArticulo], precios := [demoPrecio],
    reglas := [], combinaciones := [] }

/-- An audit sink that always succeeds. -/
def sinkOk : AuditSink := fun _ => .ok ()

/-- An audit sink that always raises. -/
def sinkFalla : AuditSink := fun _ => .error "insert into auditoria_precios failed"

/-- Second item of the same group, for bundle matching. -/
def demoArticulo2 : Articulo :=
  { id := 2, grupo := demoGrupo, nombre := "Broca", ultimo_costo := 1,
    activo := true }

/-- Base price 1500 for the five-stage scenario. -/
def escPrecio : PrecioArticulo :=
  { id := 2, lista_precio := 1, articulo := 1, precio_base := 1500,
    bajo_costo := false, autorizado_bajo_costo := false,
    descuento_proveedor := 0, observaciones := "" }

/-- Channel rule: TIENDA, 5 percent, unscoped. -/
def reglaCanal : ReglaPrecio :=
  { lista_precio := 1, nombre := "Canal TIENDA", tipo_regla := "CANAL",
    prioridad := 1, canal := some "TIENDA", linea_articulo := none,
    grupo_articulo := none, cantidad_minima := none, cantidad_maxima := none,
    monto_minimo := none, monto_maximo := none, tipo_descuento := "PORCENTAJE",
    valor_descuento := 5, activo := true }

/-- Unit-scale rule: at least 10 units, 10 percent. -/
def reglaUnidades : ReglaPrecio :=
  { lista_precio := 1, nombre := "Mayoreo 10", tipo_regla := "ESCALA_UNIDADES",
    prioridad := 1, canal := none, linea_articulo := none,
    grupo_articulo := none, cantidad_minima := some 10, cantidad_maxima := none,
    monto_minimo := none, monto_maximo := none, tipo_descuento := "PORCENTAJE",
    valor_descuento := 10, activo := true }

/-- Amount-scale rule: line amount at most 20000, 2 percent.  At the base
price the line amount would be 22500 and this rule would not match; it only
matches against the running price after the first two stages. -/
def reglaMonto : ReglaPrecio :=
  { lista_precio := 1, nombre := "Monto hasta 20000", tipo_regla := "ESCALA_MONTO",
    prioridad := 1, canal := none, linea_articulo := none,
    grupo_articulo := none, cantidad_minima := none, cantidad_maxima := none,
    monto_minimo := none, monto_maximo := some 20000,
    tipo_descuento := "PORCENTAJE", valor_descuento := 2, activo := true }

/-- Order-amount rule: order of at least 30000, 1 percent. -/
def reglaPedido : ReglaPrecio :=
  { lista_precio := 1, nombre := "Pedido 30000", tipo_regla := "MONTO_PEDIDO",
    prioridad := 1, canal := none, linea_articulo := none,
    grupo_articulo := none, cantidad_minima := none, cantidad_maxima := none,
    monto_minimo := some 30000, monto_maximo := none,
    tipo_descuento := "PORCENTAJE", valor_descuento := 1, activo := true }

/-- Bundle: at least two units of group 1, 15 percent. -/
def demoCombinacion : CombinacionProducto :=
  { lista_precio := 1, nombre := "Combo grupo 1", cantidad_minima := 1,
    tipo_descuento := "PORCENTAJE", valor_descuento := 15, activo := true,
    detalles := [{ articulo := none, grupo_articulo := some 1,
                   linea_articulo := none, cantidad_requerida := 2 }] }

/-- A TIENDA-channel price list: channel-scoped because the resolver only
returns channel-tagged lists when a channel is requested. -/
def escLista : ListaPrecio :=
  { id := 1, empresa_id := 1, sucursal_id := none, nombre := "Lista TIENDA",
    tipo := "GENERAL", canal := some "TIENDA", fecha_inicio := 0,
    fecha_fin := none, activo := true }

/-- Store for the full five-stage scenario. -/
def escDB : DB :=
  { listas := [escLista],
    articulos := [demoArticulo, demoArticulo2],
    precios := [escPrecio,
      { id := 3, lista_precio := 1, articulo := 2, precio_base := 5,
        bajo_costo := false, autorizado_bajo_costo := false,
        descuento_proveedor := 0, observaciones := "" }],
    reglas := [reglaCanal, reglaUnidades, reglaMonto, reglaPedido],
    combinaciones := [demoCombinacion] }

/-- Order lines holding one unit of each item of group 1. -/
def demoItems : List ItemPedido :=
  [{ articulo_id := 1, cantidad := 1 }, { articulo_id := 2, cantidad := 1 }]

/-! ### Stage combinators mirroring the conditional blocks of
`calcular_precio`, used to state the staging theorems -/

/-- Section 3.1 of `calcular_precio`: the channel stage runs only when the
caller supplied a (truthy) channel. -/
def pasoCanal (db : DB) (lista : ListaPrecio) (articulo : Articulo)
    (precio : Rat) (canal : Option String) : Rat × Option ReglaAplicada :=
  if truthyStr canal then
    aplicar_regla_canal db lista articulo precio (canal.getD "")
  else (precio, none)

/-- Section 3.4 of `calcular_precio`: the order-amount stage runs only when
a (truthy) order amount was supplied. -/
def pasoPedido (db : DB) (lista : ListaPrecio) (articulo : Articulo)
    (precio : Rat) (monto_pedido : Option Rat) : Rat × Option ReglaAplicada :=
  if truthyRat monto_pedido then
    aplicar_regla_monto_pedido db lista articulo precio (monto_pedido.getD 0)
  else (precio, none)

/-- Section 3.5 of `calcular_precio`: the combination stage runs only when
a (truthy) list of order lines was supplied. -/
def pasoCombinacion (db : DB) (lista : ListaPrecio) (articulo : Articulo)
    (precio : Rat) (items_pedido : Option (List ItemPedido)) :
    Rat × Option ReglaAplicada :=
  if truthyList items_pedido then
    aplicar_regla_combinacion db lista articulo precio (items_pedido.getD [])
  else (precio, none)

/-- The five-stage chain of `calcular_precio`: each stage's output price is
the next stage's input; returns the final price and the applied-rule
descriptors in stage order. -/
def etapas (db : DB) (lista : ListaPrecio) (articulo : Articulo)
    (precio_base : Rat) (cantidad : Rat) (canal : Option String)
    (monto_pedido : Option Rat) (items_pedido : Option (List ItemPedido)) :
    Rat × List ReglaAplicada :=
  let paso_canal := pasoCanal db lista articulo precio_base canal
  let paso_unidades :=
    aplicar_regla_escala_unidades db lista articulo paso_canal.1 cantidad
  let paso_monto :=
    aplicar_regla_escala_monto db lista articulo paso_unidades.1
      (paso_unidades.1 * cantidad)
  let paso_pedido := pasoPedido db lista articulo paso_monto.1 monto_pedido
  let paso_combinacion :=
    pasoCombinacion db lista articulo paso_pedido.1 items_pedido
  (paso_combinacion.1,
   paso_canal.2.toList ++ paso_unidades.2.toList ++ paso_monto.2.toList
     ++ paso_pedido.2.toList ++ paso_combinacion.2.toList)

/-- The result dict `calcular_precio` assembles once the three lookups have
succeeded (steps 3 and 4 of the source). -/
def armarResultado (db : DB) (lista : ListaPrecio) (articulo : Articulo)
    (precio_articulo : PrecioArticulo) (articulo_id : Nat) (cantidad : Rat)
    (canal : Option String) (monto_pedido : Option Rat)
    (items_pedido : Option (List ItemPedido)) : ResultadoPrecio :=
  let r := etapas db lista articulo precio_articulo.precio_base cantidad canal
    monto_pedido items_pedido
  let bajo_costo := decide (r.1 < articulo.ultimo_costo)
  { articulo_id := articulo_id,
    articulo_nombre := articulo.nombre,
    cantidad := cantidad,
    precio_base := precio_articulo.precio_base,
    precio_final := r.1,
    monto_total := r.1 * cantidad,
    descuento_total := precio_articulo.precio_base - r.1,
    porcentaje_descuento :=
      if precio_articulo.precio_base > 0 then
        (precio_articulo.precio_base - r.1) / precio_articulo.precio_base * 100
      else 0,
    reglas_aplicadas := r.2,
    bajo_costo := bajo_costo,
    autorizado_bajo_costo :=
      if bajo_costo then precio_articulo.autorizado_bajo_costo else true,
    ultimo_costo := articulo.ultimo_costo,
    descuento_proveedor := precio_articulo.descuento_proveedor,
    lista_precio := lista.nombre }

/-- The audit payload `calcular_precio` hands to the sink (step 5). -/
def armarAuditoria (db : DB) (lista : ListaPrecio) (articulo : Articulo)
    (precio_articulo : PrecioArticulo) (articulo_id : Nat) (cantidad : Rat)
    (canal : Option String) (monto_pedido : Option Rat)
    (items_pedido : Option (List ItemPedido)) : AuditoriaCalculo :=
  let r := etapas db lista articulo precio_articulo.precio_base cantidad canal
    monto_pedido items_pedido
  { registro_id := articulo_id,
    precio_base := precio_articulo.precio_base,
    precio_final := r.1,
    reglas_aplicadas := r.2,
    bajo_costo := decide (r.1 < articulo.ultimo_costo) }

/-- Whether one order line counts toward a bundle line requirement: the
line's item exists and matches the requirement's target exactly, or by
group, or by line (the disjunction of the `if`/`elif` branches of
`_validar_combinacion`). -/
def coincideDetalle (db : DB) (detalle : DetalleCombinacionProducto)
    (item : ItemPedido) : Bool :=
  match db.articulos.find? (fun a => a.id == item.articulo_id) with
  | none => false
  | some articulo =>
    (detalle.articulo.isSome && detalle.articulo == some item.articulo_id) ||
    (detalle.grupo_articulo.isSome &&
      detalle.grupo_articulo == some articulo.grupo.id) ||
    (detalle.linea_articulo.isSome &&
      detalle.linea_articulo == some articulo.grupo.linea)

/-! ### Concrete price lists for the resolver scenarios -/

/-- Matching list with the earlier start. -/
def listaVieja : ListaPrecio :=
  { id := 10, empresa_id := 1, sucursal_id := none, nombre := "Vieja",
    tipo := "GENERAL", canal := none, fecha_inicio := 0, fecha_fin := none,
    activo := true }

/-- Matching list with the latest start: the resolver must pick this one. -/
def listaNueva : ListaPrecio :=
  { id := 11, empresa_id := 1, sucursal_id := none, nombre := "Nueva",
    tipo := "GENERAL", canal := none, fecha_inicio := 3, fecha_fin := some 9,
    activo := true }

/-- Distractors: inactive, other company, expired, not yet started. -/
def listasDB : DB :=
  { listas :=
      [{ id := 12, empresa_id := 1, sucursal_id := none, nombre := "Inactiva",
         tipo := "GENERAL", canal := none, fecha_inicio := 4, fecha_fin := none,
         activo := false },
       listaVieja,
       { id := 13, empresa_id := 2, sucursal_id := none, nombre := "Otra",
         tipo := "GENERAL", canal := none, fecha_inicio := 5, fecha_fin := none,
         activo := true },
       listaNueva,
       { id := 14, empresa_id := 1, sucursal_id := none, nombre := "Expirada",
         tipo := "GENERAL", canal := none, fecha_inicio := 1, fecha_fin := some 2,
         activo := true },
       { id := 15, empresa_id := 1, sucursal_id := none, nombre := "Futura",
         tipo := "GENERAL", canal := none, fecha_inicio := 8, fecha_fin := none,
         activo := true }],
    articulos := [], precios := [], reglas := [], combinaciones := [] }

/-- Descriptor the combination stage emits for `demoCombinacion`. -/
def demoDescriptorCombo : ReglaAplicada :=
  { tipo := "COMBINACION", nombre := "Combo grupo 1", descuento := 15,
    tipo_descuento := "PORCENTAJE" }

/-- A 150 percent PORCENTAJE rule. -/
def reglaCiento50 : ReglaPrecio :=
  { reglaCanal with valor_descuento := 150 }

/-- A MONTO_FIJO rule bigger than the price it will be applied to. -/
def reglaFijoGrande : ReglaPrecio :=
  { reglaCanal with tipo_descuento := "MONTO_FIJO", valor_descuento := 200 }

/-- The group bundle with a 150 percent discount. -/
def comboCiento50 : CombinacionProducto :=
  { demoCombinacion with valor_descuento := 150 }

/-- `escDB` with only the 150 percent bundle. -/
def escDB150 : DB := { escDB with combinaciones := [comboCiento50] }

/-- Descriptor the combination stage emits for `comboCiento50`. -/
def demoDescriptorCombo150 : ReglaAplicada :=
  { tipo := "COMBINACION", nombre := "Combo grupo 1", descuento := 150,
    tipo_descuento := "PORCENTAJE" }

/-- Rewrite a bundle's `cantidad_minima` field, leaving the rest intact. -/
def conCantidadMinima (f : CombinacionProducto → Int)
    (cb : CombinacionProducto) : CombinacionProducto :=
  { cb with cantidad_minima := f cb }

/-- Rewrite `cantidad_minima` of every bundle of the store. -/
def dbConCantidadMinima (db : DB) (f : CombinacionProducto → Int) : DB :=
  { db with combinaciones := db.combinaciones.map (conCantidadMinima f) }

/-- `demoPrecio` after registering a 60 percent supplier discount. -/
def demoPrecioActualizado : PrecioArticulo :=
  { demoPrecio with
    descuento_proveedor := 60
    autorizado_bajo_costo := true
    observaciones := "nota proveedor" }

/-- `demoDB` after that registration. -/
def demoDBActualizado : DB :=
  { demoDB with precios := [demoPrecioActualizado] }

/-! ## Theorems -/

theorem mem_sortDescBy {α : Type} (key : α → Int) (l : List α) (x : α) :
    x ∈ sortDescBy key l ↔ x ∈ l :=
  (List.perm_insertionSort (keyGe key) l).mem_iff

theorem sortDescBy_eq_nil_iff {α : Type} (key : α → Int) (l : List α) :
    sortDescBy key l = [] ↔ l = [] := by
  constructor
  · intro h
    have hp := List.perm_insertionSort (keyGe key) l
    rw [show l.insertionSort (keyGe key) = sortDescBy key l from rfl, h] at hp
    exact List.Perm.eq_nil hp.symm
  · intro h; subst h; rfl

theorem sortDescBy_head_max {α : Type} (key : α → Int) (l : List α) (x : α)
    (xs : List α) (h : sortDescBy key l = x :: xs) :
    ∀ y ∈ l, key y ≤ key x := by
  intro y hy
  have hs : List.Sorted (keyGe key) (x :: xs) := by
    rw [← h]; exact List.sorted_insertionSort (keyGe key) l
  have hy' : y ∈ x :: xs := by
    rw [← h, mem_sortDescBy]; exact hy
  rcases List.mem_cons.mp hy' with rfl | hmem
  · exact le_refl _
  · exact (List.sorted_cons.mp hs).1 y hmem


theorem head?_casos {α : Type} (l : List α) :
    l.head? = none ∨ ∃ x xs, l = x :: xs ∧ l.head? = some x := by
  cases l with
  | nil => exact Or.inl rfl
  | cons a as => exact Or.inr ⟨a, as, rfl, rfl⟩

theorem mem_of_head?_eq_some {α : Type} {l : List α} {x : α}
    (h : l.head? = some x) : x ∈ l := by
  cases l with
  | nil => exact Option.noConfusion h
  | cons a as =>
    have : a = x := Option.some.inj h
    subst this
    exact List.mem_cons_self a as

theorem find?_eq_some_split {α : Type} {p : α → Bool} {l : List α} {x : α}
    (h : l.find? p = some x) :
    ∃ pre post, l = pre ++ x :: post ∧ (∀ y ∈ pre, p y = false) ∧ p x = true := by
  induction l with
  | nil => exact Option.noConfusion h
  | cons a as ih =>
    cases ha : p a with
    | true =>
      rw [List.find?_cons, ha] at h
      have : a = x := Option.some.inj h
      subst this
      exact ⟨[], as, rfl, by intro y hy; exact absurd hy (List.not_mem_nil y), ha⟩
    | false =>
      rw [List.find?_cons, ha] at h
      obtain ⟨pre, post, hl2, hpre, hx⟩ := ih h
      refine ⟨a :: pre, post, by rw [hl2]; rfl, ?_, hx⟩
      intro y hy
      rcases List.mem_cons.mp hy with rfl | hy2
      · exact ha
      · exact hpre y hy2

/-- `calcular_precio` unfolded through the stage combinators: the body after
the three lookups is exactly `armarAuditoria`/`armarResultado`. -/
theorem calcular_precio_eq (db : DB) (sink : AuditSink) (empresa_id : Nat)
    (articulo_id : Nat) (cantidad : Rat) (sucursal_id : Option Nat)
    (canal : Option String) (monto_pedido : Option Rat)
    (items_pedido : Option (List ItemPedido)) (fecha : Option Int) (hoy : Int) :
    calcular_precio db sink empresa_id articulo_id cantidad sucursal_id canal
      monto_pedido items_pedido fecha hoy =
    match obtener_lista_vigente db empresa_id sucursal_id canal fecha hoy with
    | none => .error "Error al calcular precio: No existe una lista de precios vigente"
    | some lista =>
      match db.articulos.find? (fun a => a.id == articulo_id && a.activo) with
      | none => .error ("Artículo con ID " ++ toString articulo_id ++ " no existe")
      | some articulo =>
        match db.precios.find?
            (fun p => p.lista_precio == lista.id && p.articulo == articulo.id) with
        | none =>
          .error ("Error al calcular precio: No existe precio para el artículo "
            ++ articulo.nombre)
        | some precio_articulo =>
          match sink (armarAuditoria db lista articulo precio_articulo
              articulo_id cantidad canal monto_pedido items_pedido) with
          | .error e => .error ("Error al calcular precio: " ++ e)
          | .ok _ =>
            .ok (armarResultado db lista articulo precio_articulo articulo_id
              cantidad canal monto_pedido items_pedido) := rfl

/-- Dissection of a successful `calcular_precio` run: the three lookups
succeeded, the sink accepted the audit payload, and the result is
`armarResultado`. -/
theorem calcular_precio_spec {db : DB} {sink : AuditSink} {empresa_id : Nat}
    {articulo_id : Nat} {cantidad : Rat} {sucursal_id : Option Nat}
    {canal : Option String} {monto_pedido : Option Rat}
    {items_pedido : Option (List ItemPedido)} {fecha : Option Int} {hoy : Int}
    {res : ResultadoPrecio}
    (h : calcular_precio db sink empresa_id articulo_id cantidad sucursal_id
      canal monto_pedido items_pedido fecha hoy = .ok res) :
    ∃ lista articulo precio_articulo,
      obtener_lista_vigente db empresa_id sucursal_id canal fecha hoy = some lista ∧
      db.articulos.find? (fun a => a.id == articulo_id && a.activo) = some articulo ∧
      db.precios.find?
        (fun p => p.lista_precio == lista.id && p.articulo == articulo.id) =
        some precio_articulo ∧
      sink (armarAuditoria db lista articulo precio_articulo articulo_id
        cantidad canal monto_pedido items_pedido) = .ok () ∧
      res = armarResultado db lista articulo precio_articulo articulo_id
        cantidad canal monto_pedido items_pedido := by
  rw [calcular_precio_eq] at h
  split at h
  · exact Except.noConfusion h
  · rename_i lista hl
    split at h
    · exact Except.noConfusion h
    · rename_i articulo ha
      split at h
      · exact Except.noConfusion h
      · rename_i precio_articulo hp
        split at h
        · exact Except.noConfusion h
        · rename_i u hs
          cases u
          exact ⟨lista, articulo, precio_articulo, hl, ha, hp, hs,
            (Except.ok.inj h).symm⟩


/-- Case analysis of the channel stage: either no candidate matched and the
price passes through, or the winner is an active CANAL rule of this list for
this channel whose scope covers the item. -/
theorem aplicar_regla_canal_casos (db : DB) (lista : ListaPrecio)
    (articulo : Articulo) (precio : Rat) (canal : String) :
    aplicar_regla_canal db lista articulo precio canal = (precio, none) ∨
    ∃ regla : ReglaPrecio, regla ∈ db.reglas ∧
      regla.lista_precio = lista.id ∧ regla.tipo_regla = "CANAL" ∧
      regla.canal = some canal ∧ regla.activo = true ∧
      matchesScope regla articulo = true ∧
      aplicar_regla_canal db lista articulo precio canal =
        (regla.aplicar_descuento precio,
         some { tipo := "CANAL", nombre := regla.nombre,
                descuento := regla.valor_descuento,
                tipo_descuento := regla.tipo_descuento }) := by
  rcases head?_casos (sortDescBy (fun r => r.prioridad)
      ((db.reglas.filter (fun r =>
        r.lista_precio == lista.id && r.tipo_regla == "CANAL" &&
        r.canal == some canal && r.activo)).filter
        (fun r => matchesScope r articulo))) with hh | ⟨regla, rest, hcons, hh⟩
  · left
    simp only [aplicar_regla_canal, hh]
  · right
    have h1 : regla ∈ sortDescBy (fun r => r.prioridad)
        ((db.reglas.filter (fun r =>
          r.lista_precio == lista.id && r.tipo_regla == "CANAL" &&
          r.canal == some canal && r.activo)).filter
          (fun r => matchesScope r articulo)) := by
      rw [hcons]; exact List.mem_cons_self _ _
    have h2 := (mem_sortDescBy _ _ _).mp h1
    have h3 := List.mem_filter.mp h2
    have h4 := List.mem_filter.mp h3.1
    have h5 := h4.2
    simp only [Bool.and_eq_true, beq_iff_eq] at h5
    refine ⟨regla, h4.1, h5.1.1.1, h5.1.1.2, h5.1.2, h5.2, h3.2, ?_⟩
    simp only [aplicar_regla_canal, hh]

/-- Case analysis of the unit-scale stage. -/
theorem aplicar_regla_escala_unidades_casos (db : DB) (lista : ListaPrecio)
    (articulo : Articulo) (precio : Rat) (cantidad : Rat) :
    aplicar_regla_escala_unidades db lista articulo precio cantidad =
      (precio, none) ∨
    ∃ regla : ReglaPrecio, regla ∈ db.reglas ∧
      regla.lista_precio = lista.id ∧ regla.tipo_regla = "ESCALA_UNIDADES" ∧
      regla.activo = true ∧ matchesScope regla articulo = true ∧
      (∀ x, regla.cantidad_minima = some x → x ≤ cantidad) ∧
      (∀ x, regla.cantidad_maxima = some x → cantidad ≤ x) ∧
      aplicar_regla_escala_unidades db lista articulo precio cantidad =
        (regla.aplicar_descuento precio,
         some { tipo := "ESCALA_UNIDADES", nombre := regla.nombre,
                descuento := regla.valor_descuento,
                tipo_descuento := regla.tipo_descuento,
                cantidad_minima := truthyEcho regla.cantidad_minima,
                cantidad_maxima := truthyEcho regla.cantidad_maxima }) := by
  rcases head?_casos (sortDescBy (fun r => r.prioridad)
      (((db.reglas.filter (fun r =>
         r.lista_precio == lista.id && r.tipo_regla == "ESCALA_UNIDADES" &&
         r.activo)).filter
       (fun r => matchesScope r articulo)).filter
      (fun r =>
        (match r.cantidad_minima with
         | some m => decide (m ≤ cantidad)
         | none => true) &&
        (match r.cantidad_maxima with
         | some m => decide (cantidad ≤ m)
         | none => true)))) with hh | ⟨regla, rest, hcons, hh⟩
  · left
    simp only [aplicar_regla_escala_unidades, hh]
  · right
    have h1 : regla ∈ sortDescBy (fun r => r.prioridad)
        (((db.reglas.filter (fun r =>
           r.lista_precio == lista.id && r.tipo_regla == "ESCALA_UNIDADES" &&
           r.activo)).filter
         (fun r => matchesScope r articulo)).filter
        (fun r =>
          (match r.cantidad_minima with
           | some m => decide (m ≤ cantidad)
           | none => true) &&
          (match r.cantidad_maxima with
           | some m => decide (cantidad ≤ m)
           | none => true))) := by
      rw [hcons]; exact List.mem_cons_self _ _
    have h2 := (mem_sortDescBy _ _ _).mp h1
    have h3 := List.mem_filter.mp h2
    have h4 := List.mem_filter.mp h3.1
    have h5 := List.mem_filter.mp h4.1
    have h6 := h5.2
    simp only [Bool.and_eq_true, beq_iff_eq] at h6
    have hbounds := h3.2
    rw [Bool.and_eq_true] at hbounds
    refine ⟨regla, h5.1, h6.1.1, h6.1.2, h6.2, h4.2, ?_, ?_, ?_⟩
    · intro x hx
      have := hbounds.1
      rw [hx] at this
      exact of_decide_eq_true this
    · intro x hx
      have := hbounds.2
      rw [hx] at this
      exact of_decide_eq_true this
    · simp only [aplicar_regla_escala_unidades, hh]

/-- Case analysis of the amount-scale stage: the winner's bounds are checked
against the `monto_item` argument. -/
theorem aplicar_regla_escala_monto_casos (db : DB) (lista : ListaPrecio)
    (articulo : Articulo) (precio : Rat) (monto_item : Rat) :
    aplicar_regla_escala_monto db lista articulo precio monto_item =
      (precio, none) ∨
    ∃ regla : ReglaPrecio, regla ∈ db.reglas ∧
      regla.lista_precio = lista.id ∧ regla.tipo_regla = "ESCALA_MONTO" ∧
      regla.activo = true ∧ matchesScope regla articulo = true ∧
      (∀ x, regla.monto_minimo = some x → x ≤ monto_item) ∧
      (∀ x, regla.monto_maximo = some x → monto_item ≤ x) ∧
      aplicar_regla_escala_monto db lista articulo precio monto_item =
        (regla.aplicar_descuento precio,
         some { tipo := "ESCALA_MONTO", nombre := regla.nombre,
                descuento := regla.valor_descuento,
                tipo_descuento := regla.tipo_descuento,
                monto_minimo := truthyEcho regla.monto_minimo,
                monto_maximo := truthyEcho regla.monto_maximo }) := by
  rcases head?_casos (sortDescBy (fun r => r.prioridad)
      (((db.reglas.filter (fun r =>
         r.lista_precio == lista.id && r.tipo_regla == "ESCALA_MONTO" &&
         r.activo)).filter
       (fun r => matchesScope r articulo)).filter
      (fun r =>
        (match r.monto_minimo with
         | some m => decide (m ≤ monto_item)
         | none => true) &&
        (match r.monto_maximo with
         | some m => decide (monto_item ≤ m)
         | none => true)))) with hh | ⟨regla, rest, hcons, hh⟩
  · left
    simp only [aplicar_regla_escala_monto, hh]
  · right
    have h1 : regla ∈ sortDescBy (fun r => r.prioridad)
        (((db.reglas.filter (fun r =>
           r.lista_precio == lista.id && r.tipo_regla == "ESCALA_MONTO" &&
           r.activo)).filter
         (fun r => matchesScope r articulo)).filter
        (fun r =>
          (match r.monto_minimo with
           | some m => decide (m ≤ monto_item)
           | none => true) &&
          (match r.monto_maximo with
           | some m => decide (monto_item ≤ m)
           | none => true))) := by
      rw [hcons]; exact List.mem_cons_self _ _
    have h2 := (mem_sortDescBy _ _ _).mp h1
    have h3 := List.mem_filter.mp h2
    have h4 := List.mem_filter.mp h3.1
    have h5 := List.mem_filter.mp h4.1
    have h6 := h5.2
    simp only [Bool.and_eq_true, beq_iff_eq] at h6
    have hbounds := h3.2
    rw [Bool.and_eq_true] at hbounds
    refine ⟨regla, h5.1, h6.1.1, h6.1.2, h6.2, h4.2, ?_, ?_, ?_⟩
    · intro x hx
      have := hbounds.1
      rw [hx] at this
      exact of_decide_eq_true this
    · intro x hx
      have := hbounds.2
      rw [hx] at this
      exact of_decide_eq_true this
    · simp only [aplicar_regla_escala_monto, hh]

/-- Case analysis of the order-amount stage (no scope filter). -/
theorem aplicar_regla_monto_pedido_casos (db : DB) (lista : ListaPrecio)
    (articulo : Articulo) (precio : Rat) (monto_pedido : Rat) :
    aplicar_regla_monto_pedido db lista articulo precio monto_pedido =
      (precio, none) ∨
    ∃ regla : ReglaPrecio, regla ∈ db.reglas ∧
      regla.lista_precio = lista.id ∧ regla.tipo_regla = "MONTO_PEDIDO" ∧
      regla.activo = true ∧
      (∀ x, regla.monto_minimo = some x → x ≤ monto_pedido) ∧
      (∀ x, regla.monto_maximo = some x → monto_pedido ≤ x) ∧
      aplicar_regla_monto_pedido db lista articulo precio monto_pedido =
        (regla.aplicar_descuento precio,
         some { tipo := "MONTO_PEDIDO", nombre := regla.nombre,
                descuento := regla.valor_descuento,
                tipo_descuento := regla.tipo_descuento }) := by
  rcases head?_casos (sortDescBy (fun r => r.prioridad)
      ((db.reglas.filter (fun r =>
        r.lista_precio == lista.id && r.tipo_regla == "MONTO_PEDIDO" &&
        r.activo)).filter
      (fun r =>
        (match r.monto_minimo with
         | some m => decide (m ≤ monto_pedido)
         | none => true) &&
        (match r.monto_maximo with
         | some m => decide (monto_pedido ≤ m)
         | none => true)))) with hh | ⟨regla, rest, hcons, hh⟩
  · left
    simp only [aplicar_regla_monto_pedido, hh]
  · right
    have h1 : regla ∈ sortDescBy (fun r => r.prioridad)
        ((db.reglas.filter (fun r =>
          r.lista_precio == lista.id && r.tipo_regla == "MONTO_PEDIDO" &&
          r.activo)).filter
        (fun r =>
          (match r.monto_minimo with
           | some m => decide (m ≤ monto_pedido)
           | none => true) &&
          (match r.monto_maximo with
           | some m => decide (monto_pedido ≤ m)
           | none => true))) := by
      rw [hcons]; exact List.mem_cons_self _ _
    have h2 := (mem_sortDescBy _ _ _).mp h1
    have h3 := List.mem_filter.mp h2
    have h4 := List.mem_filter.mp h3.1
    have h5 := h4.2
    simp only [Bool.and_eq_true, beq_iff_eq] at h5
    have hbounds := h3.2
    rw [Bool.and_eq_true] at hbounds
    refine ⟨regla, h4.1, h5.1.1, h5.1.2, h5.2, ?_, ?_, ?_⟩
    · intro x hx
      have := hbounds.1
      rw [hx] at this
      exact of_decide_eq_true this
    · intro x hx
      have := hbounds.2
      rw [hx] at this
      exact of_decide_eq_true this
    · simp only [aplicar_regla_monto_pedido, hh]

/-- Case analysis of the combination stage: either no active bundle of the
list validates and the price passes through, or the first validating bundle
in stored order is applied. -/
theorem aplicar_regla_combinacion_casos (db : DB) (lista : ListaPrecio)
    (articulo : Articulo) (precio : Rat) (items_pedido : List ItemPedido) :
    (aplicar_regla_combinacion db lista articulo precio items_pedido =
       (precio, none) ∧
     ∀ cb ∈ db.combinaciones.filter
         (fun c => c.lista_precio == lista.id && c.activo),
       validar_combinacion db cb items_pedido = false) ∨
    ∃ cb pre post,
      db.combinaciones.filter (fun c => c.lista_precio == lista.id && c.activo) =
        pre ++ cb :: post ∧
      (∀ cb2 ∈ pre, validar_combinacion db cb2 items_pedido = false) ∧
      validar_combinacion db cb items_pedido = true ∧
      aplicar_regla_combinacion db lista articulo precio items_pedido =
        ((if cb.tipo_descuento == "PORCENTAJE" then
            precio * (1 - cb.valor_descuento / 100)
          else max (precio - cb.valor_descuento) 0),
         some { tipo := "COMBINACION", nombre := cb.nombre,
                descuento := cb.valor_descuento,
                tipo_descuento := cb.tipo_descuento }) := by
  cases hf : (db.combinaciones.filter
      (fun c => c.lista_precio == lista.id && c.activo)).find?
      (fun c => validar_combinacion db c items_pedido) with
  | none =>
    left
    constructor
    · simp only [aplicar_regla_combinacion, hf]
    · intro cb hcb
      have := List.find?_eq_none.mp hf cb hcb
      exact Bool.eq_false_iff.mpr this
  | some cb =>
    right
    obtain ⟨pre, post, hsplit, hpre, hcb⟩ := find?_eq_some_split hf
    refine ⟨cb, pre, post, hsplit, hpre, hcb, ?_⟩
    simp only [aplicar_regla_combinacion, hf]


/-- Claim C5: price-list resolution returns a list only if it belongs to the
requested company, is active, has started by the as-of date (defaulting to
the current date), has not expired, matches the requested branch when a
branch is given (no fallback to branch-null lists) and the requested channel
when a channel is given; among the satisfying lists it returns one with the
latest start date, and it returns none exactly when no list satisfies the
filter. -/
theorem obtener_lista_vigente_caracterizacion (db : DB) (empresa_id : Nat)
    (sucursal_id : Option Nat) (canal : Option String) (fecha : Option Int)
    (hoy : Int) :
    (∀ l, obtener_lista_vigente db empresa_id sucursal_id canal fecha hoy =
        some l →
      l ∈ db.listas ∧
      l.empresa_id = empresa_id ∧
      l.activo = true ∧
      l.fecha_inicio ≤ fecha.getD hoy ∧
      (∀ f, l.fecha_fin = some f → fecha.getD hoy ≤ f) ∧
      (truthyNat sucursal_id = true → l.sucursal_id = sucursal_id) ∧
      (truthyStr canal = true → l.canal = canal) ∧
      (∀ l2 ∈ db.listas,
        listaVigenteFiltro empresa_id sucursal_id canal (fecha.getD hoy) l2 =
          true →
        l2.fecha_inicio ≤ l.fecha_inicio)) ∧
    (obtener_lista_vigente db empresa_id sucursal_id canal fecha hoy = none ↔
      ∀ l ∈ db.listas,
        listaVigenteFiltro empresa_id sucursal_id canal (fecha.getD hoy) l =
          false) := by
  constructor
  · intro l h
    simp only [obtener_lista_vigente] at h
    have hmem_sorted := mem_of_head?_eq_some h
    have hmem_filter := (mem_sortDescBy _ _ _).mp hmem_sorted
    have hmf := List.mem_filter.mp hmem_filter
    have hP := hmf.2
    rw [listaVigenteFiltro] at hP
    rw [Bool.and_eq_true, Bool.and_eq_true, Bool.and_eq_true, Bool.and_eq_true,
      Bool.and_eq_true] at hP
    refine ⟨hmf.1, ?_, ?_, ?_, ?_, ?_, ?_, ?_⟩
    · have := hP.1.1.1.1.1
      exact beq_iff_eq.mp this
    · exact hP.1.1.1.1.2
    · exact of_decide_eq_true hP.1.1.1.2
    · intro f hf
      have := hP.2
      rw [hf] at this
      exact of_decide_eq_true this
    · intro htr
      have hb := hP.1.1.2
      rw [htr] at hb
      simp at hb
      exact hb
    · intro htr
      have hb := hP.1.2
      rw [htr] at hb
      simp at hb
      exact hb
    · intro l2 hl2 hPl2
      have hmem2 : l2 ∈ db.listas.filter
          (listaVigenteFiltro empresa_id sucursal_id canal (fecha.getD hoy)) :=
        List.mem_filter.mpr ⟨hl2, hPl2⟩
      rcases head?_casos (sortDescBy (fun l3 => l3.fecha_inicio)
          (db.listas.filter
            (listaVigenteFiltro empresa_id sucursal_id canal (fecha.getD hoy))))
        with hnone | ⟨x, xs, hcons, hx⟩
      · rw [hnone] at h
        exact Option.noConfusion h
      · rw [hx] at h
        have hxl : x = l := Option.some.inj h
        subst hxl
        exact sortDescBy_head_max _ _ _ _ hcons l2 hmem2
  · simp only [obtener_lista_vigente]
    rw [List.head?_eq_none_iff, sortDescBy_eq_nil_iff, List.filter_eq_nil_iff]
    constructor
    · intro hall l hl
      exact Bool.eq_false_iff.mpr (hall l hl)
    · intro hall l hl
      rw [hall l hl]
      exact Bool.false_ne_true

/-- Witness for C5 on a concrete store: among four distractors and two
matching lists the resolver picks the matching list with the latest start,
and that list satisfies every filter condition. -/
theorem obtener_lista_vigente_caracterizacion_witness :
    listaNueva ∈ listasDB.listas ∧
    listaNueva.empresa_id = 1 ∧
    listaNueva.activo = true ∧
    listaNueva.fecha_inicio ≤ (5 : Int) ∧
    listaVieja.fecha_inicio ≤ listaNueva.fecha_inicio := by
  have h := (obtener_lista_vigente_caracterizacion listasDB 1 none none none
    (5 : Int)).1 listaNueva (by decide)
  refine ⟨h.1, h.2.1, h.2.2.1, h.2.2.2.1, ?_⟩
  exact h.2.2.2.2.2.2.2 listaVieja (by decide) (by decide)


theorem aplicar_regla_canal_tipo {db : DB} {lista : ListaPrecio}
    {articulo : Articulo} {precio : Rat} {canal : String} {ra : ReglaAplicada}
    (h : (aplicar_regla_canal db lista articulo precio canal).2 = some ra) :
    ra.tipo = "CANAL" := by
  rcases aplicar_regla_canal_casos db lista articulo precio canal with
    hc | ⟨regla, _, _, _, _, _, _, heq⟩
  · rw [hc] at h
    exact Option.noConfusion h
  · rw [heq] at h
    cases Option.some.inj h
    rfl

theorem aplicar_regla_escala_unidades_tipo {db : DB} {lista : ListaPrecio}
    {articulo : Articulo} {precio cantidad : Rat} {ra : ReglaAplicada}
    (h : (aplicar_regla_escala_unidades db lista articulo precio cantidad).2 =
      some ra) :
    ra.tipo = "ESCALA_UNIDADES" := by
  rcases aplicar_regla_escala_unidades_casos db lista articulo precio cantidad
    with hc | ⟨regla, _, _, _, _, _, _, _, heq⟩
  · rw [hc] at h
    exact Option.noConfusion h
  · rw [heq] at h
    cases Option.some.inj h
    rfl

theorem aplicar_regla_escala_monto_tipo {db : DB} {lista : ListaPrecio}
    {articulo : Articulo} {precio monto_item : Rat} {ra : ReglaAplicada}
    (h : (aplicar_regla_escala_monto db lista articulo precio monto_item).2 =
      some ra) :
    ra.tipo = "ESCALA_MONTO" := by
  rcases aplicar_regla_escala_monto_casos db lista articulo precio monto_item
    with hc | ⟨regla, _, _, _, _, _, _, _, heq⟩
  · rw [hc] at h
    exact Option.noConfusion h
  · rw [heq] at h
    cases Option.some.inj h
    rfl

theorem aplicar_regla_monto_pedido_tipo {db : DB} {lista : ListaPrecio}
    {articulo : Articulo} {precio monto : Rat} {ra : ReglaAplicada}
    (h : (aplicar_regla_monto_pedido db lista articulo precio monto).2 =
      some ra) :
    ra.tipo = "MONTO_PEDIDO" := by
  rcases aplicar_regla_monto_pedido_casos db lista articulo precio monto
    with hc | ⟨regla, _, _, _, _, _, _, heq⟩
  · rw [hc] at h
    exact Option.noConfusion h
  · rw [heq] at h
    cases Option.some.inj h
    rfl

theorem aplicar_regla_combinacion_tipo {db : DB} {lista : ListaPrecio}
    {articulo : Articulo} {precio : Rat} {items : List ItemPedido}
    {ra : ReglaAplicada}
    (h : (aplicar_regla_combinacion db lista articulo precio items).2 =
      some ra) :
    ra.tipo = "COMBINACION" := by
  rcases aplicar_regla_combinacion_casos db lista articulo precio items with
    ⟨hc, _⟩ | ⟨cb, pre, post, _, _, _, heq⟩
  · rw [hc] at h
    exact Option.noConfusion h
  · rw [heq] at h
    cases Option.some.inj h
    rfl

theorem pasoCanal_tipo {db : DB} {lista : ListaPrecio} {articulo : Articulo}
    {precio : Rat} {canal : Option String} {ra : ReglaAplicada}
    (h : (pasoCanal db lista articulo precio canal).2 = some ra) :
    ra.tipo = "CANAL" := by
  rw [pasoCanal] at h
  cases hc : truthyStr canal with
  | false => rw [hc] at h; simp at h
  | true => rw [hc] at h; simp only [if_true] at h; exact aplicar_regla_canal_tipo h

theorem pasoPedido_tipo {db : DB} {lista : ListaPrecio} {articulo : Articulo}
    {precio : Rat} {monto : Option Rat} {ra : ReglaAplicada}
    (h : (pasoPedido db lista articulo precio monto).2 = some ra) :
    ra.tipo = "MONTO_PEDIDO" := by
  rw [pasoPedido] at h
  cases hc : truthyRat monto with
  | false => rw [hc] at h; simp at h
  | true => rw [hc] at h; simp only [if_true] at h; exact aplicar_regla_monto_pedido_tipo h

theorem pasoCombinacion_tipo {db : DB} {lista : ListaPrecio}
    {articulo : Articulo} {precio : Rat} {items : Option (List ItemPedido)}
    {ra : ReglaAplicada}
    (h : (pasoCombinacion db lista articulo precio items).2 = some ra) :
    ra.tipo = "COMBINACION" := by
  rw [pasoCombinacion] at h
  cases hc : truthyList items with
  | false => rw [hc] at h; simp at h
  | true => rw [hc] at h; simp only [if_true] at h; exact aplicar_regla_combinacion_tipo h

/-- Claim C1: every successful calculation runs the five discount stages in
the fixed order CANAL, ESCALA_UNIDADES, ESCALA_MONTO, MONTO_PEDIDO,
COMBINACION, with the channel / order-amount / combination stages gated on
their argument being supplied; each stage's output price is the next
stage's input (discounts compound off the running price), and the
applied-rule descriptors are collected in that same stage order. -/
theorem calcular_precio_etapas_encadenadas {db : DB} {sink : AuditSink}
    {empresa_id articulo_id : Nat} {cantidad : Rat} {sucursal_id : Option Nat}
    {canal : Option String} {monto_pedido : Option Rat}
    {items_pedido : Option (List ItemPedido)} {fecha : Option Int} {hoy : Int}
    {res : ResultadoPrecio}
    (h : calcular_precio db sink empresa_id articulo_id cantidad sucursal_id
      canal monto_pedido items_pedido fecha hoy = .ok res) :
    ∃ lista articulo precio_articulo,
      obtener_lista_vigente db empresa_id sucursal_id canal fecha hoy =
        some lista ∧
      db.articulos.find? (fun a => a.id == articulo_id && a.activo) =
        some articulo ∧
      db.precios.find?
        (fun p => p.lista_precio == lista.id && p.articulo == articulo.id) =
        some precio_articulo ∧
      ∃ paso1 paso2 paso3 paso4 paso5 : Rat × Option ReglaAplicada,
        paso1 = pasoCanal db lista articulo precio_articulo.precio_base canal ∧
        paso2 = aplicar_regla_escala_unidades db lista articulo paso1.1
          cantidad ∧
        paso3 = aplicar_regla_escala_monto db lista articulo paso2.1
          (paso2.1 * cantidad) ∧
        paso4 = pasoPedido db lista articulo paso3.1 monto_pedido ∧
        paso5 = pasoCombinacion db lista articulo paso4.1 items_pedido ∧
        res.precio_base = precio_articulo.precio_base ∧
        res.precio_final = paso5.1 ∧
        res.reglas_aplicadas = paso1.2.toList ++ paso2.2.toList ++
          paso3.2.toList ++ paso4.2.toList ++ paso5.2.toList ∧
        (truthyStr canal = false →
          paso1 = (precio_articulo.precio_base, none)) ∧
        (truthyRat monto_pedido = false → paso4 = (paso3.1, none)) ∧
        (truthyList items_pedido = false → paso5 = (paso4.1, none)) ∧
        (∀ ra ∈ paso1.2, ra.tipo = "CANAL") ∧
        (∀ ra ∈ paso2.2, ra.tipo = "ESCALA_UNIDADES") ∧
        (∀ ra ∈ paso3.2, ra.tipo = "ESCALA_MONTO") ∧
        (∀ ra ∈ paso4.2, ra.tipo = "MONTO_PEDIDO") ∧
        (∀ ra ∈ paso5.2, ra.tipo = "COMBINACION") := by
  obtain ⟨lista, articulo, precio_articulo, hl, ha, hp, hs, hres⟩ :=
    calcular_precio_spec h
  subst hres
  refine ⟨lista, articulo, precio_articulo, hl, ha, hp,
    pasoCanal db lista articulo precio_articulo.precio_base canal, _, _, _, _,
    rfl, rfl, rfl, rfl, rfl, rfl, rfl, rfl, ?_, ?_, ?_, ?_, ?_, ?_, ?_, ?_⟩
  · intro hf
    simp [pasoCanal, hf]
  · intro hf
    simp [pasoPedido, hf]
  · intro hf
    simp [pasoCombinacion, hf]
  · intro ra hra
    exact pasoCanal_tipo (Option.mem_def.mp hra)
  · intro ra hra
    exact aplicar_regla_escala_unidades_tipo (Option.mem_def.mp hra)
  · intro ra hra
    exact aplicar_regla_escala_monto_tipo (Option.mem_def.mp hra)
  · intro ra hra
    exact pasoPedido_tipo (Option.mem_def.mp hra)
  · intro ra hra
    exact pasoCombinacion_tipo (Option.mem_def.mp hra)


/-- Witness for C1: a run on `escDB` in which all five stages fire (channel
TIENDA, quantity 15, order amount 50000, order lines supplied); the stage
chain of the theorem is realized concretely. -/
theorem calcular_precio_etapas_encadenadas_witness :
    ∃ lista articulo precio_articulo,
      obtener_lista_vigente escDB 1 none (some "TIENDA") none 0 = some lista ∧
      escDB.articulos.find? (fun a => a.id == 1 && a.activo) = some articulo ∧
      escDB.precios.find?
        (fun p => p.lista_precio == lista.id && p.articulo == articulo.id) =
        some precio_articulo ∧
      ∃ paso1 paso2 paso3 paso4 paso5 : Rat × Option ReglaAplicada,
        paso1 = pasoCanal escDB lista articulo precio_articulo.precio_base
          (some "TIENDA") ∧
        paso2 = aplicar_regla_escala_unidades escDB lista articulo paso1.1
          15 ∧
        paso3 = aplicar_regla_escala_monto escDB lista articulo paso2.1
          (paso2.1 * 15) ∧
        paso4 = pasoPedido escDB lista articulo paso3.1 (some 50000) ∧
        paso5 = pasoCombinacion escDB lista articulo paso4.1
          (some demoItems) ∧
        (armarResultado escDB escLista demoArticulo escPrecio 1 15
            (some "TIENDA") (some 50000) (some demoItems)).precio_base =
          precio_articulo.precio_base ∧
        (armarResultado escDB escLista demoArticulo escPrecio 1 15
            (some "TIENDA") (some 50000) (some demoItems)).precio_final =
          paso5.1 ∧
        (armarResultado escDB escLista demoArticulo escPrecio 1 15
            (some "TIENDA") (some 50000) (some demoItems)).reglas_aplicadas =
          paso1.2.toList ++ paso2.2.toList ++ paso3.2.toList ++
            paso4.2.toList ++ paso5.2.toList ∧
        (truthyStr (some "TIENDA") = false →
          paso1 = (precio_articulo.precio_base, none)) ∧
        (truthyRat (some 50000) = false → paso4 = (paso3.1, none)) ∧
        (truthyList (some demoItems) = false → paso5 = (paso4.1, none)) ∧
        (∀ ra ∈ paso1.2, ra.tipo = "CANAL") ∧
        (∀ ra ∈ paso2.2, ra.tipo = "ESCALA_UNIDADES") ∧
        (∀ ra ∈ paso3.2, ra.tipo = "ESCALA_MONTO") ∧
        (∀ ra ∈ paso4.2, ra.tipo = "MONTO_PEDIDO") ∧
        (∀ ra ∈ paso5.2, ra.tipo = "COMBINACION") :=
  calcular_precio_etapas_encadenadas
    (show calcular_precio escDB sinkOk 1 1 15 none (some "TIENDA")
      (some 50000) (some demoItems) none 0 =
      .ok (armarResultado escDB escLista demoArticulo escPrecio 1 15
        (some "TIENDA") (some 50000) (some demoItems)) from rfl)


/-- Counterexample to claim C2: on `demoDB` every step through result
assembly succeeds (the run with an accepting sink returns the assembled
result), yet the same input with a raising audit sink makes
`calcular_precio` fail — the audit write sits inside the same
`try`/`except Exception` and its exception is re-raised as a
`ValidationError`, so an audit failure is not swallowed. -/
theorem auditoria_falla_interrumpe_contraejemplo :
    calcular_precio demoDB sinkOk 1 1 1 none none none none none 0 =
      .ok (armarResultado demoDB demoLista demoArticulo demoPrecio 1 1
        none none none) ∧
    calcular_precio demoDB sinkFalla 1 1 1 none none none none none 0 =
      .error
        "Error al calcular precio: insert into auditoria_precios failed" :=
  ⟨rfl, rfl⟩

/-- Claim C2 amended: a failure while emitting the audit record makes the
whole price calculation fail with a wrapped `ValidationError`; when the
audit write succeeds, the returned result does not depend on the sink. -/
theorem auditoria_falla_propaga {db : DB} {empresa_id articulo_id : Nat}
    {cantidad : Rat} {sucursal_id : Option Nat} {canal : Option String}
    {monto_pedido : Option Rat} {items_pedido : Option (List ItemPedido)}
    {fecha : Option Int} {hoy : Int} {res : ResultadoPrecio}
    (hok : calcular_precio db (fun _ => .ok ()) empresa_id articulo_id
      cantidad sucursal_id canal monto_pedido items_pedido fecha hoy =
      .ok res) :
    ∀ msg : String,
      calcular_precio db (fun _ => .error msg) empresa_id articulo_id
        cantidad sucursal_id canal monto_pedido items_pedido fecha hoy =
        .error ("Error al calcular precio: " ++ msg) ∧
      ∀ sink : AuditSink, (∀ r, sink r = .ok ()) →
        calcular_precio db sink empresa_id articulo_id cantidad sucursal_id
          canal monto_pedido items_pedido fecha hoy = .ok res := by
  obtain ⟨lista, articulo, precio_articulo, hl, ha, hp, _, hres⟩ :=
    calcular_precio_spec hok
  intro msg
  constructor
  · rw [calcular_precio_eq]
    simp only [hl, ha, hp]
  · intro sink hsink
    rw [calcular_precio_eq]
    simp only [hl, ha, hp, hsink]
    rw [hres]

/-- Witness for the amended C2 on `demoDB`. -/
theorem auditoria_falla_propaga_witness :
    calcular_precio demoDB (fun _ => .error "db down") 1 1 1 none none none
      none none 0 = .error "Error al calcular precio: db down" ∧
    calcular_precio demoDB sinkOk 1 1 1 none none none none none 0 =
      .ok (armarResultado demoDB demoLista demoArticulo demoPrecio 1 1
        none none none) := by
  have h := @auditoria_falla_propaga demoDB 1 1 1 none none none none none 0
    (armarResultado demoDB demoLista demoArticulo demoPrecio 1 1
      none none none) rfl
  exact ⟨(h "db down").1, (h "db down").2 sinkOk (fun _ => rfl)⟩

/-- Claim C6: the result's below-cost flag is exactly `final < last cost`;
the authorization flag echoes the stored `autorizado_bajo_costo` when below
cost and is true otherwise; a computed below-cost result is still returned
as a successful result, unlike the write-path validation
(`PrecioArticulo.clean`) which rejects an unauthorized below-cost base
price. -/
theorem bajo_costo_reportado {db : DB} {sink : AuditSink}
    {empresa_id articulo_id : Nat} {cantidad : Rat}
    {sucursal_id : Option Nat} {canal : Option String}
    {monto_pedido : Option Rat} {items_pedido : Option (List ItemPedido)}
    {fecha : Option Int} {hoy : Int} {res : ResultadoPrecio}
    (h : calcular_precio db sink empresa_id articulo_id cantidad sucursal_id
      canal monto_pedido items_pedido fecha hoy = .ok res) :
    res.bajo_costo = decide (res.precio_final < res.ultimo_costo) ∧
    (res.bajo_costo = false → res.autorizado_bajo_costo = true) ∧
    (∃ lista articulo precio_articulo,
      obtener_lista_vigente db empresa_id sucursal_id canal fecha hoy =
        some lista ∧
      db.articulos.find? (fun a => a.id == articulo_id && a.activo) =
        some articulo ∧
      db.precios.find?
        (fun p => p.lista_precio == lista.id && p.articulo == articulo.id) =
        some precio_articulo ∧
      res.ultimo_costo = articulo.ultimo_costo ∧
      (res.bajo_costo = true →
        res.autorizado_bajo_costo = precio_articulo.autorizado_bajo_costo)) ∧
    (∀ (pa : PrecioArticulo) (art : Articulo),
      pa.precio_base < art.ultimo_costo → pa.bajo_costo = false →
      pa.descuento_proveedor < 50 →
      ∃ msg, PrecioArticulo.clean pa art = .error msg) := by
  obtain ⟨lista, articulo, precio_articulo, hl, ha, hp, _, hres⟩ :=
    calcular_precio_spec h
  subst hres
  refine ⟨rfl, ?_, ⟨lista, articulo, precio_articulo, hl, ha, hp, rfl, ?_⟩, ?_⟩
  · intro hb
    show (if decide ((etapas db lista articulo precio_articulo.precio_base
        cantidad canal monto_pedido items_pedido).1 < articulo.ultimo_costo)
      then precio_articulo.autorizado_bajo_costo else true) = true
    have hb2 : decide ((etapas db lista articulo precio_articulo.precio_base
        cantidad canal monto_pedido items_pedido).1 < articulo.ultimo_costo) =
        false := hb
    rw [hb2]
    rfl
  · intro hb
    show (if decide ((etapas db lista articulo precio_articulo.precio_base
        cantidad canal monto_pedido items_pedido).1 < articulo.ultimo_costo)
      then precio_articulo.autorizado_bajo_costo else true) =
      precio_articulo.autorizado_bajo_costo
    have hb2 : decide ((etapas db lista articulo precio_articulo.precio_base
        cantidad canal monto_pedido items_pedido).1 < articulo.ultimo_costo) =
        true := hb
    rw [hb2]
    rfl
  · intro pa art hlt hbc hdesc
    have hclean : PrecioArticulo.clean pa art = .error ("El precio ("
        ++ toString pa.precio_base ++ ") es inferior al costo ("
        ++ toString art.ultimo_costo
        ++ "). Requiere autorización o descuento de proveedor >= 50%") := by
      rw [PrecioArticulo.clean, if_pos hlt, if_pos]
      rw [hbc]
      simp [hdesc]
    exact ⟨_, hclean⟩

/-- Witness for C6 on `demoDB`: the 800 price against a 1000 cost is
reported below cost with the stored (false) authorization flag, the run
still succeeds, and writing the same record through the model validation
fails. -/
theorem bajo_costo_reportado_witness :
    (armarResultado demoDB demoLista demoArticulo demoPrecio 1 1 none none
      none).bajo_costo = true ∧
    (armarResultado demoDB demoLista demoArticulo demoPrecio 1 1 none none
      none).autorizado_bajo_costo = false ∧
    (∃ msg, PrecioArticulo.clean demoPrecio demoArticulo = .error msg) := by
  have h := @bajo_costo_reportado demoDB sinkOk 1 1 1 none none none none
    none 0
    (armarResultado demoDB demoLista demoArticulo demoPrecio 1 1
      none none none) rfl
  refine ⟨?_, by decide,
    h.2.2.2 demoPrecio demoArticulo (by decide) rfl (by decide)⟩
  rw [h.1]
  decide


theorem toList_eq_nil {α : Type} {o : Option α} (h : o.toList = []) :
    o = none := by
  cases o with
  | none => rfl
  | some a => simp [Option.toList] at h

/-- Claim C7: a stage that finds no winner leaves the price unchanged and
contributes no descriptor, and a successful calculation whose applied-rules
list is empty has its final price equal to the base price (zero total
discount). -/
theorem etapas_sin_ganador_precio_invariante :
    (∀ (db : DB) (lista : ListaPrecio) (articulo : Articulo) (precio : Rat)
      (canal : String),
      (aplicar_regla_canal db lista articulo precio canal).2 = none →
      (aplicar_regla_canal db lista articulo precio canal).1 = precio) ∧
    (∀ (db : DB) (lista : ListaPrecio) (articulo : Articulo)
      (precio cantidad : Rat),
      (aplicar_regla_escala_unidades db lista articulo precio cantidad).2 =
        none →
      (aplicar_regla_escala_unidades db lista articulo precio cantidad).1 =
        precio) ∧
    (∀ (db : DB) (lista : ListaPrecio) (articulo : Articulo)
      (precio monto_item : Rat),
      (aplicar_regla_escala_monto db lista articulo precio monto_item).2 =
        none →
      (aplicar_regla_escala_monto db lista articulo precio monto_item).1 =
        precio) ∧
    (∀ (db : DB) (lista : ListaPrecio) (articulo : Articulo)
      (precio monto : Rat),
      (aplicar_regla_monto_pedido db lista articulo precio monto).2 = none →
      (aplicar_regla_monto_pedido db lista articulo precio monto).1 =
        precio) ∧
    (∀ (db : DB) (lista : ListaPrecio) (articulo : Articulo) (precio : Rat)
      (items : List ItemPedido),
      (aplicar_regla_combinacion db lista articulo precio items).2 = none →
      (aplicar_regla_combinacion db lista articulo precio items).1 =
        precio) ∧
    (∀ (db : DB) (sink : AuditSink) (empresa_id articulo_id : Nat)
      (cantidad : Rat) (sucursal_id : Option Nat) (canal : Option String)
      (monto_pedido : Option Rat) (items_pedido : Option (List ItemPedido))
      (fecha : Option Int) (hoy : Int) (res : ResultadoPrecio),
      calcular_precio db sink empresa_id articulo_id cantidad sucursal_id
        canal monto_pedido items_pedido fecha hoy = .ok res →
      res.reglas_aplicadas = [] →
      res.precio_final = res.precio_base ∧ res.descuento_total = 0) := by
  have hcanal : ∀ (db : DB) (lista : ListaPrecio) (articulo : Articulo)
      (precio : Rat) (canal : String),
      (aplicar_regla_canal db lista articulo precio canal).2 = none →
      (aplicar_regla_canal db lista articulo precio canal).1 = precio := by
    intro db lista articulo precio canal h
    rcases aplicar_regla_canal_casos db lista articulo precio canal with
      heq | ⟨regla, _, _, _, _, _, _, heq⟩
    · rw [heq]
    · rw [heq] at h
      exact Option.noConfusion h
  have hunid : ∀ (db : DB) (lista : ListaPrecio) (articulo : Articulo)
      (precio cantidad : Rat),
      (aplicar_regla_escala_unidades db lista articulo precio cantidad).2 =
        none →
      (aplicar_regla_escala_unidades db lista articulo precio cantidad).1 =
        precio := by
    intro db lista articulo precio cantidad h
    rcases aplicar_regla_escala_unidades_casos db lista articulo precio
      cantidad with heq | ⟨regla, _, _, _, _, _, _, _, heq⟩
    · rw [heq]
    · rw [heq] at h
      exact Option.noConfusion h
  have hmonto : ∀ (db : DB) (lista : ListaPrecio) (articulo : Articulo)
      (precio monto_item : Rat),
      (aplicar_regla_escala_monto db lista articulo precio monto_item).2 =
        none →
      (aplicar_regla_escala_monto db lista articulo precio monto_item).1 =
        precio := by
    intro db lista articulo precio monto_item h
    rcases aplicar_regla_escala_monto_casos db lista articulo precio
      monto_item with heq | ⟨regla, _, _, _, _, _, _, _, heq⟩
    · rw [heq]
    · rw [heq] at h
      exact Option.noConfusion h
  have hped : ∀ (db : DB) (lista : ListaPrecio) (articulo : Articulo)
      (precio monto : Rat),
      (aplicar_regla_monto_pedido db lista articulo precio monto).2 = none →
      (aplicar_regla_monto_pedido db lista articulo precio monto).1 =
        precio := by
    intro db lista articulo precio monto h
    rcases aplicar_regla_monto_pedido_casos db lista articulo precio monto
      with heq | ⟨regla, _, _, _, _, _, _, heq⟩
    · rw [heq]
    · rw [heq] at h
      exact Option.noConfusion h
  have hcomb : ∀ (db : DB) (lista : ListaPrecio) (articulo : Articulo)
      (precio : Rat) (items : List ItemPedido),
      (aplicar_regla_combinacion db lista articulo precio items).2 = none →
      (aplicar_regla_combinacion db lista articulo precio items).1 =
        precio := by
    intro db lista articulo precio items h
    rcases aplicar_regla_combinacion_casos db lista articulo precio items
      with ⟨heq, _⟩ | ⟨cb, pre, post, _, _, _, heq⟩
    · rw [heq]
    · rw [heq] at h
      exact Option.noConfusion h
  refine ⟨hcanal, hunid, hmonto, hped, hcomb, ?_⟩
  intro db sink empresa_id articulo_id cantidad sucursal_id canal
    monto_pedido items_pedido fecha hoy res h hempty
  obtain ⟨lista, articulo, precio_articulo, hl, ha, hp, _, hres⟩ :=
    calcular_precio_spec h
  subst hres
  have hemp2 : (etapas db lista articulo precio_articulo.precio_base cantidad
      canal monto_pedido items_pedido).2 = [] := hempty
  simp only [etapas, List.append_eq_nil] at hemp2
  have e1 := toList_eq_nil hemp2.1.1.1.1
  have e2 := toList_eq_nil hemp2.1.1.1.2
  have e3 := toList_eq_nil hemp2.1.1.2
  have e4 := toList_eq_nil hemp2.1.2
  have e5 := toList_eq_nil hemp2.2
  have hpc : ∀ (db : DB) (lista : ListaPrecio) (articulo : Articulo)
      (precio : Rat) (c : Option String),
      (pasoCanal db lista articulo precio c).2 = none →
      (pasoCanal db lista articulo precio c).1 = precio := by
    intro db lista articulo precio c hnone
    rw [pasoCanal] at hnone ⊢
    cases hc : truthyStr c with
    | false => simp
    | true =>
      rw [hc] at hnone
      simp at hnone ⊢
      exact hcanal _ _ _ _ _ hnone
  have hpp : ∀ (db : DB) (lista : ListaPrecio) (articulo : Articulo)
      (precio : Rat) (m : Option Rat),
      (pasoPedido db lista articulo precio m).2 = none →
      (pasoPedido db lista articulo precio m).1 = precio := by
    intro db lista articulo precio m hnone
    rw [pasoPedido] at hnone ⊢
    cases hc : truthyRat m with
    | false => simp
    | true =>
      rw [hc] at hnone
      simp at hnone ⊢
      exact hped _ _ _ _ _ hnone
  have hpcb : ∀ (db : DB) (lista : ListaPrecio) (articulo : Articulo)
      (precio : Rat) (i : Option (List ItemPedido)),
      (pasoCombinacion db lista articulo precio i).2 = none →
      (pasoCombinacion db lista articulo precio i).1 = precio := by
    intro db lista articulo precio i hnone
    rw [pasoCombinacion] at hnone ⊢
    cases hc : truthyList i with
    | false => simp
    | true =>
      rw [hc] at hnone
      simp at hnone ⊢
      exact hcomb _ _ _ _ _ hnone
  have q1 := hpc db lista articulo precio_articulo.precio_base canal e1
  rw [q1] at e2
  have q2 := hunid db lista articulo precio_articulo.precio_base cantidad e2
  rw [q1, q2] at e3
  have q3 := hmonto db lista articulo precio_articulo.precio_base
    (precio_articulo.precio_base * cantidad) e3
  rw [q1, q2, q3] at e4
  have q4 := hpp db lista articulo precio_articulo.precio_base monto_pedido e4
  rw [q1, q2, q3, q4] at e5
  have q5 := hpcb db lista articulo precio_articulo.precio_base items_pedido e5
  constructor
  · show (etapas db lista articulo precio_articulo.precio_base cantidad canal
      monto_pedido items_pedido).1 = precio_articulo.precio_base
    simp only [etapas]
    rw [q1, q2, q3, q4]
    exact q5
  · show precio_articulo.precio_base -
      (etapas db lista articulo precio_articulo.precio_base cantidad canal
        monto_pedido items_pedido).1 = 0
    have : (etapas db lista articulo precio_articulo.precio_base cantidad
        canal monto_pedido items_pedido).1 = precio_articulo.precio_base := by
      simp only [etapas]
      rw [q1, q2, q3, q4]
      exact q5
    rw [this, sub_self]


/-- Witness for C7: on the rule-free `demoDB` every stage passes the price
through unchanged, and the full calculation with an empty applied-rules
list returns the base price with zero discount. -/
theorem etapas_sin_ganador_precio_invariante_witness :
    (aplicar_regla_canal demoDB demoLista demoArticulo 100 "TIENDA").1 =
      100 ∧
    (aplicar_regla_escala_unidades demoDB demoLista demoArticulo 100 2).1 =
      100 ∧
    (aplicar_regla_escala_monto demoDB demoLista demoArticulo 100 200).1 =
      100 ∧
    (aplicar_regla_monto_pedido demoDB demoLista demoArticulo 100 500).1 =
      100 ∧
    (aplicar_regla_combinacion demoDB demoLista demoArticulo 100
      demoItems).1 = 100 ∧
    (armarResultado demoDB demoLista demoArticulo demoPrecio 1 1 none none
      none).precio_final =
      (armarResultado demoDB demoLista demoArticulo demoPrecio 1 1 none none
        none).precio_base ∧
    (armarResultado demoDB demoLista demoArticulo demoPrecio 1 1 none none
      none).descuento_total = 0 := by
  obtain ⟨hc, hu, hm, hp, hcb, hfin⟩ := etapas_sin_ganador_precio_invariante
  have hf := hfin demoDB sinkOk 1 1 1 none none none none none 0
    (armarResultado demoDB demoLista demoArticulo demoPrecio 1 1 none none
      none) rfl rfl
  exact ⟨hc _ _ _ _ _ rfl, hu _ _ _ _ _ rfl, hm _ _ _ _ _ rfl,
    hp _ _ _ _ _ rfl, hcb _ _ _ _ _ rfl, hf.1, hf.2⟩


theorem truthyEcho_eq_some {v : Option Rat} {x : Rat}
    (h : truthyEcho v = some x) : v = some x := by
  cases v with
  | none => exact Option.noConfusion h
  | some y =>
    rw [truthyEcho] at h
    by_cases hy : y = 0
    · rw [if_pos (by simpa using hy)] at h
      exact Option.noConfusion h
    · rw [if_neg (by simpa using hy)] at h
      rw [Option.some.inj h]

/-- Claim C3: in every successful calculation the amount-scale stage's bound
check is evaluated against `precio2 * cantidad`, where `precio2` is the
running price after the channel and unit-scale stages — not against the
original base price times quantity; the rule it selects (echoed into the
applied-rules list) satisfies its `monto_minimo`/`monto_maximo` bounds at
that amount, and the stage's output feeds the rest of the chain. -/
theorem escala_monto_usa_precio_corriente {db : DB} {sink : AuditSink}
    {empresa_id articulo_id : Nat} {cantidad : Rat}
    {sucursal_id : Option Nat} {canal : Option String}
    {monto_pedido : Option Rat} {items_pedido : Option (List ItemPedido)}
    {fecha : Option Int} {hoy : Int} {res : ResultadoPrecio}
    (h : calcular_precio db sink empresa_id articulo_id cantidad sucursal_id
      canal monto_pedido items_pedido fecha hoy = .ok res) :
    ∃ lista articulo precio_articulo,
      obtener_lista_vigente db empresa_id sucursal_id canal fecha hoy =
        some lista ∧
      db.articulos.find? (fun a => a.id == articulo_id && a.activo) =
        some articulo ∧
      db.precios.find?
        (fun p => p.lista_precio == lista.id && p.articulo == articulo.id) =
        some precio_articulo ∧
      ∃ precio2 : Rat,
        precio2 = (aplicar_regla_escala_unidades db lista articulo
          (pasoCanal db lista articulo precio_articulo.precio_base canal).1
          cantidad).1 ∧
        (∀ ra ∈ (aplicar_regla_escala_monto db lista articulo precio2
            (precio2 * cantidad)).2,
          ra ∈ res.reglas_aplicadas ∧
          (∀ x, ra.monto_minimo = some x → x ≤ precio2 * cantidad) ∧
          (∀ x, ra.monto_maximo = some x → precio2 * cantidad ≤ x)) ∧
        res.precio_final =
          (pasoCombinacion db lista articulo
            (pasoPedido db lista articulo
              (aplicar_regla_escala_monto db lista articulo precio2
                (precio2 * cantidad)).1
              monto_pedido).1 items_pedido).1 := by
  obtain ⟨lista, articulo, precio_articulo, hl, ha, hp, _, hres⟩ :=
    calcular_precio_spec h
  subst hres
  refine ⟨lista, articulo, precio_articulo, hl, ha, hp,
    (aplicar_regla_escala_unidades db lista articulo
      (pasoCanal db lista articulo precio_articulo.precio_base canal).1
      cantidad).1, rfl, ?_, rfl⟩
  intro ra hra
  have hra2 := Option.mem_def.mp hra
  constructor
  · have hmem : ra ∈ (aplicar_regla_escala_monto db lista articulo
        (aplicar_regla_escala_unidades db lista articulo
          (pasoCanal db lista articulo precio_articulo.precio_base canal).1
          cantidad).1
        ((aplicar_regla_escala_unidades db lista articulo
          (pasoCanal db lista articulo precio_articulo.precio_base canal).1
          cantidad).1 * cantidad)).2.toList := by
      rw [hra2]
      exact List.mem_singleton.mpr rfl
    exact List.mem_append.mpr (Or.inl (List.mem_append.mpr (Or.inl
      (List.mem_append.mpr (Or.inr hmem)))))
  · rcases aplicar_regla_escala_monto_casos db lista articulo
      (aplicar_regla_escala_unidades db lista articulo
        (pasoCanal db lista articulo precio_articulo.precio_base canal).1
        cantidad).1
      ((aplicar_regla_escala_unidades db lista articulo
        (pasoCanal db lista articulo precio_articulo.precio_base canal).1
        cantidad).1 * cantidad) with
      heq | ⟨regla, _, _, _, _, _, hmin, hmax, heq⟩
    · rw [heq] at hra2
      exact Option.noConfusion hra2
    · rw [heq] at hra2
      cases Option.some.inj hra2
      constructor
      · intro x hx
        exact hmin x (truthyEcho_eq_some hx)
      · intro x hx
        exact hmax x (truthyEcho_eq_some hx)


/-- Witness for C3 on `escDB`: after the channel and unit-scale stages the
running price is 2565/2 = 1282.50; the amount-scale rule capped at 20000
matches the line amount 1282.50 × 15 = 19237.50 even though the base-price
line amount 1500 × 15 = 22500 would not have matched. -/
theorem escala_monto_usa_precio_corriente_witness :
    ∃ lista articulo precio_articulo,
      obtener_lista_vigente escDB 1 none (some "TIENDA") none 0 =
        some lista ∧
      escDB.articulos.find? (fun a => a.id == 1 && a.activo) =
        some articulo ∧
      escDB.precios.find?
        (fun p => p.lista_precio == lista.id && p.articulo == articulo.id) =
        some precio_articulo ∧
      ∃ precio2 : Rat,
        precio2 = (aplicar_regla_escala_unidades escDB lista articulo
          (pasoCanal escDB lista articulo precio_articulo.precio_base
            (some "TIENDA")).1 15).1 ∧
        (∀ ra ∈ (aplicar_regla_escala_monto escDB lista articulo precio2
            (precio2 * 15)).2,
          ra ∈ (armarResultado escDB escLista demoArticulo escPrecio 1 15
            (some "TIENDA") (some 50000) (some demoItems)).reglas_aplicadas ∧
          (∀ x, ra.monto_minimo = some x → x ≤ precio2 * 15) ∧
          (∀ x, ra.monto_maximo = some x → precio2 * 15 ≤ x)) ∧
        (armarResultado escDB escLista demoArticulo escPrecio 1 15
          (some "TIENDA") (some 50000) (some demoItems)).precio_final =
          (pasoCombinacion escDB lista articulo
            (pasoPedido escDB lista articulo
              (aplicar_regla_escala_monto escDB lista articulo precio2
                (precio2 * 15)).1
              (some 50000)).1 (some demoItems)).1 :=
  escala_monto_usa_precio_corriente
    (show calcular_precio escDB sinkOk 1 1 15 none (some "TIENDA")
      (some 50000) (some demoItems) none 0 =
      .ok (armarResultado escDB escLista demoArticulo escPrecio 1 15
        (some "TIENDA") (some 50000) (some demoItems)) from rfl)


theorem elif_or (b1 b2 b3 : Bool) (v w : Rat) :
    (if b1 then v else if b2 then v else if b3 then v else w) =
    (if b1 || b2 || b3 then v else w) := by
  cases b1 <;> cases b2 <;> cases b3 <;> simp

theorem cantidadEncontrada_aux (db : DB) (detalle : DetalleCombinacionProducto)
    (items : List ItemPedido) (acc : Rat) :
    items.foldl
      (fun cantidad_encontrada item =>
        match db.articulos.find? (fun a => a.id == item.articulo_id) with
        | none => cantidad_encontrada
        | some articulo =>
          if detalle.articulo.isSome &&
              detalle.articulo == some item.articulo_id then
            cantidad_encontrada + item.cantidad
          else if detalle.grupo_articulo.isSome &&
              detalle.grupo_articulo == some articulo.grupo.id then
            cantidad_encontrada + item.cantidad
          else if detalle.linea_articulo.isSome &&
              detalle.linea_articulo == some articulo.grupo.linea then
            cantidad_encontrada + item.cantidad
          else
            cantidad_encontrada)
      acc =
    acc + ((items.filter (coincideDetalle db detalle)).map
      (fun it => it.cantidad)).sum := by
  induction items generalizing acc with
  | nil => simp
  | cons it rest ih =>
    cases hfind : db.articulos.find? (fun a => a.id == it.articulo_id) with
    | none =>
      have hB : coincideDetalle db detalle it = false := by
        unfold coincideDetalle
        rw [hfind]
      rw [List.foldl_cons, hfind]
      rw [List.filter_cons, hB]
      simp only [if_false]
      exact ih acc
    | some articulo2 =>
      have hB : coincideDetalle db detalle it =
          ((detalle.articulo.isSome &&
            detalle.articulo == some it.articulo_id) ||
           (detalle.grupo_articulo.isSome &&
            detalle.grupo_articulo == some articulo2.grupo.id) ||
           (detalle.linea_articulo.isSome &&
            detalle.linea_articulo == some articulo2.grupo.linea)) := by
        unfold coincideDetalle
        rw [hfind]
      rw [List.foldl_cons]
      simp only [hfind]
      rw [elif_or]
      rw [List.filter_cons, ← hB]
      cases hcoin : coincideDetalle db detalle it with
      | false =>
        simp only [Bool.false_eq_true, if_false]
        exact ih acc
      | true =>
        simp only [eq_self_iff_true, if_true, List.map_cons, List.sum_cons]
        rw [ih]
        ring

/-- Claim C4: the combination stage scans the price list's active bundles in
stored order and applies the first that matches (not a priority-ranked one);
a bundle matches exactly when every line requirement reaches its required
quantity, where the quantity found for a requirement is the sum of the
quantities of the order lines whose item matches the requirement's target
exactly, or by group, or by line; when no bundle matches, the price is
unchanged and no descriptor is produced. -/
theorem combinacion_primera_coincidencia (db : DB) (lista : ListaPrecio)
    (articulo : Articulo) (precio : Rat) (items : List ItemPedido) :
    ((∀ cb ∈ db.combinaciones.filter
        (fun c => c.lista_precio == lista.id && c.activo),
      validar_combinacion db cb items = false) →
      aplicar_regla_combinacion db lista articulo precio items =
        (precio, none)) ∧
    (∀ p2 d, aplicar_regla_combinacion db lista articulo precio items =
        (p2, some d) →
      ∃ cb pre post,
        db.combinaciones.filter
          (fun c => c.lista_precio == lista.id && c.activo) =
          pre ++ cb :: post ∧
        (∀ cb2 ∈ pre, validar_combinacion db cb2 items = false) ∧
        validar_combinacion db cb items = true ∧
        p2 = (if cb.tipo_descuento == "PORCENTAJE" then
            precio * (1 - cb.valor_descuento / 100)
          else max (precio - cb.valor_descuento) 0) ∧
        d = { tipo := "COMBINACION", nombre := cb.nombre,
              descuento := cb.valor_descuento,
              tipo_descuento := cb.tipo_descuento }) ∧
    (∀ cb, validar_combinacion db cb items = true ↔
      ∀ detalle ∈ cb.detalles,
        (detalle.cantidad_requerida : Rat) ≤
          cantidadEncontrada db detalle items) ∧
    (∀ detalle, cantidadEncontrada db detalle items =
      ((items.filter (coincideDetalle db detalle)).map
        (fun it => it.cantidad)).sum) := by
  refine ⟨?_, ?_, ?_, ?_⟩
  · intro hall
    rcases aplicar_regla_combinacion_casos db lista articulo precio items
      with ⟨heq, _⟩ | ⟨cb, pre, post, hsplit, _, hval, _⟩
    · exact heq
    · have hmem : cb ∈ db.combinaciones.filter
          (fun c => c.lista_precio == lista.id && c.activo) := by
        rw [hsplit]
        exact List.mem_append.mpr (Or.inr (List.mem_cons_self _ _))
      rw [hall cb hmem] at hval
      exact Bool.noConfusion hval
  · intro p2 d heq2
    rcases aplicar_regla_combinacion_casos db lista articulo precio items
      with ⟨heq, _⟩ | ⟨cb, pre, post, hsplit, hpre, hval, heq⟩
    · rw [heq] at heq2
      injection heq2 with h1 h2
      exact Option.noConfusion h2
    · rw [heq] at heq2
      injection heq2 with h1 h2
      exact ⟨cb, pre, post, hsplit, hpre, hval, h1.symm,
        (Option.some.inj h2).symm⟩
  · intro cb
    simp only [validar_combinacion, List.all_eq_true, decide_eq_true_eq]
  · intro detalle
    have h := cantidadEncontrada_aux db detalle items 0
    rw [zero_add] at h
    exact h


/-- Witness for C4: with no bundle (demoDB) the stage passes the price
through, and on `escDB` the group bundle is the first stored match and its
15 percent discount takes 100 to 85. -/
theorem combinacion_primera_coincidencia_witness :
    (aplicar_regla_combinacion demoDB demoLista demoArticulo 100 demoItems =
      (100, none)) ∧
    (∃ cb pre post,
      escDB.combinaciones.filter
        (fun c => c.lista_precio == escLista.id && c.activo) =
        pre ++ cb :: post ∧
      (∀ cb2 ∈ pre, validar_combinacion escDB cb2 demoItems = false) ∧
      validar_combinacion escDB cb demoItems = true ∧
      (85 : Rat) = (if cb.tipo_descuento == "PORCENTAJE" then
          100 * (1 - cb.valor_descuento / 100)
        else max (100 - cb.valor_descuento) 0) ∧
      demoDescriptorCombo =
        { tipo := "COMBINACION", nombre := cb.nombre,
          descuento := cb.valor_descuento,
          tipo_descuento := cb.tipo_descuento }) := by
  constructor
  · exact (combinacion_primera_coincidencia demoDB demoLista demoArticulo
      100 demoItems).1 (fun cb hcb => absurd hcb (List.not_mem_nil cb))
  · have hval : validar_combinacion escDB demoCombinacion demoItems = true := by
      norm_num [validar_combinacion, cantidadEncontrada, demoItems, escDB,
        demoCombinacion, demoArticulo, demoArticulo2, demoGrupo, List.foldl,
        List.find?]
      decide
    have hfind : (escDB.combinaciones.filter
        (fun c => c.lista_precio == escLista.id && c.activo)).find?
        (fun c => validar_combinacion escDB c demoItems) =
        some demoCombinacion := by
      rw [show escDB.combinaciones.filter
        (fun c => c.lista_precio == escLista.id && c.activo) =
        [demoCombinacion] from rfl]
      rw [List.find?_cons, hval]
    have heq : aplicar_regla_combinacion escDB escLista demoArticulo 100
        demoItems = (85, some demoDescriptorCombo) := by
      rw [aplicar_regla_combinacion, hfind]
      norm_num [demoCombinacion, demoDescriptorCombo]
    exact (combinacion_primera_coincidencia escDB escLista demoArticulo
      100 demoItems).2.1 85 demoDescriptorCombo heq


/-- Claim C8: only the FIXED_AMOUNT path is clamped at zero; a PERCENTAGE
discount returns exactly `price * (1 - value/100)` with no lower bound, so
a value above 100 drives a positive price negative, both in
`ReglaPrecio.aplicar_descuento` and in the combination-stage discount
fold. -/
theorem porcentaje_sin_tope :
    (∀ (r : ReglaPrecio) (precio : Rat), r.tipo_descuento = "PORCENTAJE" →
      r.aplicar_descuento precio = precio * (1 - r.valor_descuento / 100)) ∧
    (∀ (r : ReglaPrecio) (precio : Rat), r.tipo_descuento = "PORCENTAJE" →
      0 < precio → 100 < r.valor_descuento →
      r.aplicar_descuento precio < 0) ∧
    (∀ (r : ReglaPrecio) (precio : Rat), r.tipo_descuento ≠ "PORCENTAJE" →
      0 ≤ r.aplicar_descuento precio) ∧
    (∀ (db : DB) (lista : ListaPrecio) (articulo : Articulo) (precio : Rat)
      (items : List ItemPedido) (p2 : Rat) (d : ReglaAplicada),
      aplicar_regla_combinacion db lista articulo precio items =
        (p2, some d) →
      d.tipo_descuento = "PORCENTAJE" → 0 < precio → 100 < d.descuento →
      p2 < 0) := by
  have hform : ∀ (r : ReglaPrecio) (precio : Rat),
      r.tipo_descuento = "PORCENTAJE" →
      r.aplicar_descuento precio = precio * (1 - r.valor_descuento / 100) := by
    intro r precio h
    have hb : (r.tipo_descuento == "PORCENTAJE") = true := beq_iff_eq.mpr h
    rw [ReglaPrecio.aplicar_descuento, if_pos hb]
  have harith : ∀ (precio v : Rat), 0 < precio → 100 < v →
      precio * (1 - v / 100) < 0 := by
    intro precio v hp hv
    have h100 : (0 : Rat) < 100 := by norm_num
    have h1 : 1 < v / 100 := (one_lt_div h100).mpr hv
    have hneg : 1 - v / 100 < 0 := by linarith
    exact mul_neg_of_pos_of_neg hp hneg
  refine ⟨hform, ?_, ?_, ?_⟩
  · intro r precio h hp hv
    rw [hform r precio h]
    exact harith precio r.valor_descuento hp hv
  · intro r precio h
    have hb : (r.tipo_descuento == "PORCENTAJE") = false :=
      beq_eq_false_iff_ne.mpr h
    rw [ReglaPrecio.aplicar_descuento, hb]
    simp only [Bool.false_eq_true, if_false]
    exact le_max_right _ _
  · intro db lista articulo precio items p2 d heq htipo hp hv
    rcases aplicar_regla_combinacion_casos db lista articulo precio items
      with ⟨heqn, _⟩ | ⟨cb, pre, post, _, _, _, heqs⟩
    · rw [heqn] at heq
      injection heq with h1 h2
      exact Option.noConfusion h2
    · rw [heqs] at heq
      injection heq with h1 h2
      have hd := Option.some.inj h2
      subst hd
      have hb : (cb.tipo_descuento == "PORCENTAJE") = true :=
        beq_iff_eq.mpr htipo
      rw [← h1, if_pos hb]
      exact harith precio cb.valor_descuento hp hv

/-- Witness for C8: a 150 percent rule takes 100 to -50 (negative, no
clamp); a 200 fixed-amount discount on 100 clamps at 0; the 150 percent
bundle drives the combination-stage price negative. -/
theorem porcentaje_sin_tope_witness :
    reglaCiento50.aplicar_descuento 100 = 100 * (1 - 150 / 100) ∧
    reglaCiento50.aplicar_descuento 100 < 0 ∧
    0 ≤ reglaFijoGrande.aplicar_descuento 100 ∧
    (aplicar_regla_combinacion escDB150 escLista demoArticulo 100
      demoItems).1 < 0 := by
  have hval : validar_combinacion escDB150 comboCiento50 demoItems = true := by
    norm_num [validar_combinacion, cantidadEncontrada, demoItems, escDB150,
      escDB, comboCiento50, demoCombinacion, demoArticulo, demoArticulo2,
      demoGrupo, List.foldl, List.find?]
    decide
  have hfind : (escDB150.combinaciones.filter
      (fun c => c.lista_precio == escLista.id && c.activo)).find?
      (fun c => validar_combinacion escDB150 c demoItems) =
      some comboCiento50 := by
    rw [show escDB150.combinaciones.filter
      (fun c => c.lista_precio == escLista.id && c.activo) =
      [comboCiento50] from rfl]
    rw [List.find?_cons, hval]
  have heq : aplicar_regla_combinacion escDB150 escLista demoArticulo 100
      demoItems = (100 * (1 - 150 / 100), some demoDescriptorCombo150) := by
    rw [aplicar_regla_combinacion, hfind]
    norm_num [comboCiento50, demoCombinacion, demoDescriptorCombo150]
  have hneg := (porcentaje_sin_tope).2.2.2 escDB150 escLista demoArticulo 100
    demoItems (100 * (1 - 150 / 100)) demoDescriptorCombo150 heq rfl
    (by norm_num) (by norm_num [demoDescriptorCombo150])
  refine ⟨(porcentaje_sin_tope).1 reglaCiento50 100 rfl, ?_, ?_, ?_⟩
  · exact (porcentaje_sin_tope).2.1 reglaCiento50 100 rfl (by norm_num)
      (by norm_num [reglaCiento50, reglaCanal])
  · exact (porcentaje_sin_tope).2.2.1 reglaFijoGrande 100 (by decide)
  · rw [heq]
    exact hneg



/-- Claim C9: the combination stage never reads a bundle's
`cantidad_minima`: rewriting that field of every bundle (by any function)
leaves the stage's output — price and descriptor — unchanged; matching
depends only on the active flag, the price list and the line requirements. -/
theorem combinacion_ignora_cantidad_minima (db : DB) (lista : ListaPrecio)
    (articulo : Articulo) (precio : Rat) (items : List ItemPedido)
    (f : CombinacionProducto → Int) :
    aplicar_regla_combinacion (dbConCantidadMinima db f) lista articulo
      precio items =
    aplicar_regla_combinacion db lista articulo precio items := by
  unfold aplicar_regla_combinacion
  have hfilter : (dbConCantidadMinima db f).combinaciones.filter
        (fun c => c.lista_precio == lista.id && c.activo) =
      (db.combinaciones.filter
        (fun c => c.lista_precio == lista.id && c.activo)).map
        (conCantidadMinima f) := by
    rw [show (dbConCantidadMinima db f).combinaciones =
      db.combinaciones.map (conCantidadMinima f) from rfl]
    exact List.filter_map _ db.combinaciones
  rw [hfilter]
  rw [List.find?_map]
  cases hfind : (db.combinaciones.filter
      (fun c => c.lista_precio == lista.id && c.activo)).find?
      ((fun c => validar_combinacion (dbConCantidadMinima db f) c items) ∘
        conCantidadMinima f) with
  | none =>
    have hfind2 : (db.combinaciones.filter
        (fun c => c.lista_precio == lista.id && c.activo)).find?
        (fun c => validar_combinacion db c items) = none := hfind
    rw [hfind2]
    rfl
  | some cb =>
    have hfind2 : (db.combinaciones.filter
        (fun c => c.lista_precio == lista.id && c.activo)).find?
        (fun c => validar_combinacion db c items) = some cb := hfind
    rw [hfind2]
    rfl


/-- Claim C10: for any percentage in [50, 70], a successful
`registrar_descuento_proveedor` touches only the targeted record and only
its `descuento_proveedor`, `autorizado_bajo_costo` (always forced to true)
and `observaciones` fields; `precio_base` and `bajo_costo` are unchanged,
all other tables and all other price records are untouched. -/
theorem registrar_descuento_marco {db : DB} {precio_articulo_id : Nat}
    {d : Rat} {obs : String} {pa2 : PrecioArticulo} {db2 : DB}
    (h50 : 50 ≤ d) (h70 : d ≤ 70)
    (h : registrar_descuento_proveedor db precio_articulo_id d obs =
      .ok (pa2, db2)) :
    ∃ pa, db.precios.find? (fun p => p.id == precio_articulo_id) = some pa ∧
      pa2.descuento_proveedor = d ∧
      pa2.autorizado_bajo_costo = true ∧
      pa2.observaciones = obs ∧
      pa2.precio_base = pa.precio_base ∧
      pa2.bajo_costo = pa.bajo_costo ∧
      pa2.id = pa.id ∧
      pa2.lista_precio = pa.lista_precio ∧
      pa2.articulo = pa.articulo ∧
      db2.listas = db.listas ∧
      db2.articulos = db.articulos ∧
      db2.reglas = db.reglas ∧
      db2.combinaciones = db.combinaciones ∧
      db2.precios = db.precios.map
        (fun p => if p.id == precio_articulo_id then pa2 else p) ∧
      (∀ p ∈ db.precios, p.id ≠ precio_articulo_id → p ∈ db2.precios) := by
  rw [registrar_descuento_proveedor] at h
  rw [if_neg] at h
  · cases hfind : db.precios.find? (fun p => p.id == precio_articulo_id) with
    | none =>
      rw [hfind] at h
      exact Except.noConfusion h
    | some pa =>
      rw [hfind] at h
      have hpair := Except.ok.inj h
      injection hpair with hpa hdb
      subst hpa
      subst hdb
      refine ⟨pa, rfl, rfl, rfl, rfl, rfl, rfl, rfl, rfl, rfl, rfl, rfl,
        rfl, rfl, rfl, ?_⟩
      intro p hp hne
      have hne2 : (p.id == precio_articulo_id) = false :=
        beq_eq_false_iff_ne.mpr hne
      refine List.mem_map.mpr ⟨p, hp, ?_⟩
      simp [hne2]
  · intro hcond
    simp only [Bool.not_eq_true', Bool.and_eq_false_iff,
      decide_eq_false_iff_not] at hcond
    rcases hcond with hc | hc
    · exact hc h50
    · exact hc h70

/-- Witness for C10: registering a 60 percent supplier discount on
`demoPrecio` (whose authorization flag was false) flips only the three
fields, forcing `autorizado_bajo_costo` to true. -/
theorem registrar_descuento_marco_witness :
    ∃ pa, demoDB.precios.find? (fun p => p.id == 1) = some pa ∧
      demoPrecioActualizado.descuento_proveedor = 60 ∧
      demoPrecioActualizado.autorizado_bajo_costo = true ∧
      demoPrecioActualizado.observaciones = "nota proveedor" ∧
      demoPrecioActualizado.precio_base = pa.precio_base ∧
      demoPrecioActualizado.bajo_costo = pa.bajo_costo ∧
      demoPrecioActualizado.id = pa.id ∧
      demoPrecioActualizado.lista_precio = pa.lista_precio ∧
      demoPrecioActualizado.articulo = pa.articulo ∧
      demoDBActualizado.listas = demoDB.listas ∧
      demoDBActualizado.articulos = demoDB.articulos ∧
      demoDBActualizado.reglas = demoDB.reglas ∧
      demoDBActualizado.combinaciones = demoDB.combinaciones ∧
      demoDBActualizado.precios = demoDB.precios.map
        (fun p => if p.id == 1 then demoPrecioActualizado else p) ∧
      (∀ p ∈ demoDB.precios, p.id ≠ 1 → p ∈ demoDBActualizado.precios) :=
  registrar_descuento_marco (by norm_num) (by norm_num)
    (show registrar_descuento_proveedor demoDB 1 60 "nota proveedor" =
      .ok (demoPrecioActualizado, demoDBActualizado) from rfl)

end Precios
